import Mathlib

/-!
Shallow embedding of the agent decision core of MASFinancialMarketLaboratory.

Python floats are modelled as exact rationals (ℚ), Python ints as ℤ/ℕ.
Python dicts (insertion-ordered) are modelled as association lists.
Stateful methods become explicit state-passing functions.
-/

namespace MAS

/-- Truncation toward zero: the behaviour of Python's `int()` applied to a float. -/
def pyInt (q : ℚ) : ℤ :=
  if 0 ≤ q then ((q.num.toNat / q.den : ℕ) : ℤ)
  else -(((-q.num).toNat / q.den : ℕ) : ℤ)

/-- environment.models.order.Side -/
inductive Side where
  | BUY
  | SELL
deriving DecidableEq, Repr

/-- environment.models.order.OrderType -/
inductive OrderType where
  | LIMIT
  | MARKET
deriving DecidableEq, Repr

/-- environment.models.order.OrderLifecycle -/
inductive OrderLifecycle where
  | WORKING
  | DONE
deriving DecidableEq, Repr

/-- environment.models.order.OrderEndReasons -/
inductive OrderEndReasons where
  | FILLED
  | CANCELLED
  | OTHER
deriving DecidableEq, Repr

/-- environment.views.OrderView: the fields the agents read. -/
structure OrderView where
  order_id : ℕ
  side : Side
  lifecycle : OrderLifecycle
  end_reason : Option OrderEndReasons
  price : Option ℚ
deriving DecidableEq, Repr

/-- environment.views.DepositView: the fields the agents read. -/
structure DepositView where
  deposit_id : ℕ
  maturity_macro_tick : ℕ
deriving DecidableEq, Repr

/-- environment.views.AccountView: live cash/share balances. -/
structure AccountView where
  cash : ℚ
  shares : ℤ
deriving DecidableEq, Repr

/-- Market data snapshot; L1 sides are (price, size, order count). -/
structure MarketDataView where
  mid_price : Option ℚ
  micro_price : Option ℚ
  last_traded_price : Option ℚ
  L1_bids : Option (ℚ × ℤ × ℕ)
  L1_asks : Option (ℚ × ℤ × ℕ)
deriving DecidableEq, Repr

/-- Economy insight snapshot: fair-value interval and term → rate map. -/
structure EconomyInsightView where
  tv_interval : ℚ × ℚ
  deposit_rates : List (ℕ × ℚ)
deriving DecidableEq, Repr

/-- agents.models.AgentView -/
structure AgentView where
  agent_id : ℕ
  timestamp : ℚ
  macro_tick : ℕ
  micro_tick : ℕ
  market_data_view : Option MarketDataView
  economy_insight_view : Option EconomyInsightView
deriving DecidableEq, Repr

/-- agents.models.AgentConstants -/
structure AgentConstants where
  simulation_macro_tick : ℕ
  simulation_micro_tick : ℕ
  fee_rate : ℚ
deriving DecidableEq, Repr

/-- agents.intents: PlaceOrderIntent / CancelOrderIntent / CreateDepositIntent. -/
inductive AgentIntent where
  | placeOrder (intent_id : ℕ) (side : Side) (order_type : OrderType)
      (quantity : ℤ) (price : Option ℚ)
  | cancelOrder (intent_id : ℕ) (order_id : ℕ)
  | createDeposit (intent_id : ℕ) (amount : ℚ) (term : ℕ)
deriving DecidableEq, Repr

/-- The local sequence number carried by any intent. -/
def AgentIntent.intentIdOf : AgentIntent → ℕ
  | .placeOrder i _ _ _ _ => i
  | .cancelOrder i _ => i
  | .createDeposit i _ _ => i

/-- agents.models.AgentFeedback -/
structure AgentFeedback where
  agent_id : ℕ
  order_results : List (ℕ × Option OrderView)
  deposit_results : List (ℕ × Option DepositView)
deriving DecidableEq, Repr

/-- Python dict assignment `d[k] = v` on an insertion-ordered dict:
replace in place when the key exists, else append. -/
def alistInsert {α : Type} (l : List (ℕ × α)) (k : ℕ) (v : α) : List (ℕ × α) :=
  if (l.map Prod.fst).contains k then
    l.map (fun p => if p.1 = k then (k, v) else p)
  else l ++ [(k, v)]

end MAS

namespace MAS.MomentumTrader

/-- MomentumTrader._calculate_momentum_signal, as a function of the one field
it reads, `self.price_history` (a forward time-ordered price list).
Time-weighted average of consecutive returns, weight = recency index. -/
def _calculate_momentum_signal (price_history : List ℚ) : ℚ :=
  if price_history.length < 2 then 0
  else
    let step := fun (acc : ℚ × ℚ) (i : ℕ) =>
      let price_prev := price_history.getD (i - 1) 0
      let price_curr := price_history.getD i 0
      if price_prev > 0 then
        (acc.1 + (price_curr - price_prev) / price_prev * i, acc.2 + i)
      else acc
    let wr := (List.range' 1 (price_history.length - 1)).foldl step (0, 0)
    if wr.2 > 0 then wr.1 / wr.2 else 0

/-- MomentumTrader._calculate_liquidity_amplifier, as a function of the fields
it reads: `self.liquidity_baseline` and the view's L1 sides. -/
def _calculate_liquidity_amplifier (liquidity_baseline : ℤ) (md : MarketDataView) : ℚ :=
  let bidSize : ℤ := match md.L1_bids with
    | some b => b.2.1
    | none => 0
  let askSize : ℤ := match md.L1_asks with
    | some a => a.2.1
    | none => 0
  let total_liquidity : ℤ := bidSize + askSize
  if total_liquidity = 0 then 1
  else
    let liquidity_ratio : ℚ := (total_liquidity : ℚ) / (liquidity_baseline : ℚ)
    1 / max (1 / 2) (min 2 liquidity_ratio)

/-- Top-of-book size read by `_calculate_liquidity_amplifier`:
best-bid size plus best-ask size, a missing side contributing 0. -/
def totalTopOfBookSize (md : MarketDataView) : ℤ :=
  (match md.L1_bids with
    | some b => b.2.1
    | none => 0) +
  (match md.L1_asks with
    | some a => a.2.1
    | none => 0)

/-- The amplifier formula exactly as the specification words it:
`1/clamp(total_top_of_book_size/liquidity_baseline, 0.5, 2.0)`, with no
special case.  Written from the spec to be compared against the code's
`_calculate_liquidity_amplifier`. -/
def specLiquidityAmplifier (liquidity_baseline : ℤ) (md : MarketDataView) : ℚ :=
  1 / max (1 / 2) (min 2 ((totalTopOfBookSize md : ℚ) / (liquidity_baseline : ℚ)))

end MAS.MomentumTrader

namespace MAS

/-- agents.agents.market_maker.MarketMaker: parameters, account collaborators,
and the strategy-internal mutable state, as one record. -/
structure MarketMaker where
  agent_id : ℕ
  account_view : AccountView
  constants : AgentConstants
  target_inventory_fraction : ℚ
  risk_lower_bound : ℚ
  risk_upper_bound : ℚ
  stabilization_tolerance : ℚ
  spread_size : ℤ
  order_size : ℤ
  wait_time : ℤ
  skew_factor : ℤ
  active_bids : List (ℕ × OrderView)
  active_asks : List (ℕ × OrderView)
  last_known_price : Option ℚ
  current_micro_tick : ℕ
  last_mid_price : Option ℚ
  last_inventory_ratio : Option ℚ
  layer_changed : Bool
  order_filled_this_tick : Bool
  last_layer_tag : String
  current_global_tick : ℕ
  last_quote_global_tick : Option ℕ
  intent_id_counter : ℕ
deriving DecidableEq, Repr

end MAS

namespace MAS.MarketMaker

open MAS

/-- The `intent_id` property: returns the current private counter and
post-increments it. -/
def next_intent_id (s : MarketMaker) : MarketMaker × ℕ :=
  ({ s with intent_id_counter := s.intent_id_counter + 1 }, s.intent_id_counter)

/-- MarketMaker._calculate_inventory_ratio -/
def _calculate_inventory_ratio (s : MarketMaker) : ℚ :=
  match s.last_known_price with
  | none => s.target_inventory_fraction
  | some p =>
    let total_wealth := s.account_view.cash + (s.account_view.shares : ℚ) * p
    if total_wealth ≤ 0 then s.target_inventory_fraction
    else s.account_view.cash / total_wealth

/-- MarketMaker._estimate_price.  Inside `decide` both snapshot asserts have
passed, so every path returns a price; the mutation of
`self.last_known_price` is made explicit. -/
def _estimate_price (s : MarketMaker) (md : MarketDataView) (eco : EconomyInsightView) :
    MarketMaker × ℚ :=
  match md.mid_price with
  | some p => ({ s with last_known_price := some p }, p)
  | none =>
    match md.micro_price with
    | some p => ({ s with last_known_price := some p }, p)
    | none =>
      match md.last_traded_price with
      | some p => ({ s with last_known_price := some p }, p)
      | none =>
        match s.last_known_price with
        | some p => (s, p)
        | none => (s, (eco.tv_interval.1 + eco.tv_interval.2) / 2)

/-- MarketMaker._should_survive -/
def _should_survive (s : MarketMaker) : Bool :=
  let inventory_ratio := _calculate_inventory_ratio s
  if inventory_ratio < s.risk_lower_bound then true
  else if inventory_ratio > s.risk_upper_bound then true
  else false

/-- MarketMaker._should_stabilize -/
def _should_stabilize (s : MarketMaker) : Bool :=
  |_calculate_inventory_ratio s - s.target_inventory_fraction| > s.stabilization_tolerance

/-- MarketMaker._determine_current_layer -/
def _determine_current_layer (s : MarketMaker) : String :=
  if _should_survive s then "SURVIVE"
  else if _should_stabilize s then "STABILIZE"
  else "PROVIDE"

/-- MarketMaker._validate_bid_quantity -/
def _validate_bid_quantity (s : MarketMaker) (quantity : ℤ) : ℤ :=
  if quantity ≤ 0 then 0
  else if s.account_view.cash ≤ 0 then 0
  else
    match s.last_known_price with
    | none => 0
    | some p =>
      let cost_per_share := p * (1 + s.constants.fee_rate)
      let max_quantity := pyInt (s.account_view.cash / cost_per_share)
      min quantity max_quantity

/-- MarketMaker._validate_ask_quantity -/
def _validate_ask_quantity (s : MarketMaker) (quantity : ℤ) : ℤ :=
  if quantity ≤ 0 then 0
  else min quantity s.account_view.shares

/-- One pass of MarketMaker._cancel_all_orders over one order dict:
a CancelOrder intent, with a fresh intent id, for every WORKING order. -/
def cancelWorking (s : MarketMaker) (orders : List (ℕ × OrderView)) :
    MarketMaker × List AgentIntent :=
  match orders with
  | [] => (s, [])
  | (oid, ov) :: rest =>
    if ov.lifecycle = OrderLifecycle.WORKING then
      let p1 := next_intent_id s
      let p2 := cancelWorking p1.1 rest
      (p2.1, AgentIntent.cancelOrder p1.2 oid :: p2.2)
    else cancelWorking s rest

/-- MarketMaker._cancel_all_orders: bids first, then asks. -/
def _cancel_all_orders (s : MarketMaker) : MarketMaker × List AgentIntent :=
  let pb := cancelWorking s s.active_bids
  let pa := cancelWorking pb.1 s.active_asks
  (pa.1, pb.2 ++ pa.2)

/-- MarketMaker._create_panic_sell_intent -/
def _create_panic_sell_intent (s : MarketMaker) (md : MarketDataView)
    (eco : EconomyInsightView) : MarketMaker × Option AgentIntent :=
  let shares := s.account_view.shares
  if shares ≤ 0 then (s, none)
  else
    let pm := _estimate_price s md eco
    let s1 := pm.1
    let mid_price := pm.2
    let panic_sell_price := max (1 / 100) (mid_price - 5 * (s1.spread_size : ℚ))
    let quantity := min shares (s1.order_size * 3)
    let s2 := { s1 with last_mid_price := some mid_price }
    let pi := next_intent_id s2
    (pi.1, some (AgentIntent.placeOrder pi.2 Side.SELL OrderType.LIMIT quantity
      (some panic_sell_price)))

/-- MarketMaker._create_panic_buy_intent -/
def _create_panic_buy_intent (s : MarketMaker) (md : MarketDataView)
    (eco : EconomyInsightView) : MarketMaker × Option AgentIntent :=
  let cash := s.account_view.cash
  if cash ≤ 0 then (s, none)
  else
    let pm := _estimate_price s md eco
    let s1 := pm.1
    let mid_price := pm.2
    let panic_buy_price := mid_price + 5 * (s1.spread_size : ℚ)
    let cost_per_share := panic_buy_price * (1 + s1.constants.fee_rate)
    let max_quantity := pyInt (cash / cost_per_share)
    let quantity := min max_quantity (s1.order_size * 3)
    if quantity ≤ 0 then (s1, none)
    else
      let s2 := { s1 with last_mid_price := some mid_price }
      let pi := next_intent_id s2
      (pi.1, some (AgentIntent.placeOrder pi.2 Side.BUY OrderType.LIMIT quantity
        (some panic_buy_price)))

/-- MarketMaker._survive_layer -/
def _survive_layer (s : MarketMaker) (md : MarketDataView) (eco : EconomyInsightView) :
    MarketMaker × List AgentIntent :=
  let pc := _cancel_all_orders s
  let s1 := pc.1
  let inventory_ratio := _calculate_inventory_ratio s1
  if inventory_ratio < s1.risk_lower_bound then
    let po := _create_panic_sell_intent s1 md eco
    (po.1, pc.2 ++ po.2.toList)
  else if inventory_ratio > s1.risk_upper_bound then
    let po := _create_panic_buy_intent s1 md eco
    (po.1, pc.2 ++ po.2.toList)
  else (s1, pc.2)

/-- MarketMaker._calculate_skew -/
def _calculate_skew (s : MarketMaker) (inventory_ratio : ℚ) : ℚ :=
  -(inventory_ratio - s.target_inventory_fraction) * (s.skew_factor : ℚ)

/-- MarketMaker._calculate_skewed_prices -/
def _calculate_skewed_prices (s : MarketMaker) (mid_price skew : ℚ) : ℚ × ℚ :=
  let max_shift := (s.spread_size : ℚ) / 2
  let skew_direction : ℚ := if skew > 0 then 1 else if skew < 0 then -1 else 0
  let price_shift := skew_direction * min |skew / 100 * mid_price| max_shift
  let shifted_mid := mid_price + price_shift
  let half_spread := (s.spread_size : ℚ) / 2
  let bid_price := shifted_mid - half_spread
  let ask_price := shifted_mid + half_spread
  let fee_per_share := mid_price * s.constants.fee_rate
  (max (1 / 100) (bid_price - fee_per_share), max (1 / 100) (ask_price + fee_per_share))

/-- MarketMaker._calculate_skewed_quantities -/
def _calculate_skewed_quantities (s : MarketMaker) (inventory_ratio : ℚ) : ℤ × ℤ :=
  let base_quantity := s.order_size
  let deviation := |inventory_ratio - s.target_inventory_fraction|
  let supportive_multiplier := min (2 + deviation * 2) 3
  let risk_multiplier := max (1 / 2 - deviation) (1 / 4)
  let qs := if inventory_ratio > s.target_inventory_fraction then
      (pyInt ((base_quantity : ℚ) * supportive_multiplier),
       pyInt ((base_quantity : ℚ) * risk_multiplier))
    else
      (pyInt ((base_quantity : ℚ) * risk_multiplier),
       pyInt ((base_quantity : ℚ) * supportive_multiplier))
  (_validate_bid_quantity s qs.1, _validate_ask_quantity s qs.2)

/-- MarketMaker._is_quote_equivalent -/
def _is_quote_equivalent (ov : OrderView) (target_price : ℚ) (target_side : Side) : Bool :=
  if ov.lifecycle ≠ OrderLifecycle.WORKING then false
  else if ov.side ≠ target_side then false
  else
    match ov.price with
    | some p => decide (|p - target_price| ≤ 1)
    | none => false

/-- MarketMaker._has_equivalent_working_order -/
def _has_equivalent_working_order (s : MarketMaker) (side : Side) (target_price : ℚ) : Bool :=
  let orders := if side = Side.BUY then s.active_bids else s.active_asks
  orders.any (fun p => _is_quote_equivalent p.2 target_price side)

/-- One pass of the selective cancel loops: a CancelOrder intent for every
WORKING order in `orders` that is not quote-equivalent to the target. -/
def cancelNonEquivalent (s : MarketMaker) (orders : List (ℕ × OrderView))
    (target : ℚ) (side : Side) : MarketMaker × List AgentIntent :=
  match orders with
  | [] => (s, [])
  | (oid, ov) :: rest =>
    if ov.lifecycle = OrderLifecycle.WORKING ∧ _is_quote_equivalent ov target side = false then
      let p1 := next_intent_id s
      let p2 := cancelNonEquivalent p1.1 rest target side
      (p2.1, AgentIntent.cancelOrder p1.2 oid :: p2.2)
    else cancelNonEquivalent s rest target side

/-- MarketMaker._cancel_non_equivalent_orders -/
def _cancel_non_equivalent_orders (s : MarketMaker) (bid_price ask_price : ℚ) :
    MarketMaker × List AgentIntent :=
  let pb := cancelNonEquivalent s s.active_bids bid_price Side.BUY
  let pa := cancelNonEquivalent pb.1 pb.1.active_asks ask_price Side.SELL
  (pa.1, pb.2 ++ pa.2)

/-- MarketMaker._selective_stabilize_cancel: cancel only the risk side. -/
def _selective_stabilize_cancel (s : MarketMaker) (inventory_ratio target_bid target_ask : ℚ) :
    MarketMaker × List AgentIntent :=
  if inventory_ratio < s.target_inventory_fraction then
    cancelNonEquivalent s s.active_bids target_bid Side.BUY
  else
    cancelNonEquivalent s s.active_asks target_ask Side.SELL

/-- The STABILIZE target prices after the skewed-price computation and the
bid≥ask recentring fallback (lines 254-261 of market_maker.py). -/
def stabilizeTargets (s : MarketMaker) (mid_price skew : ℚ) : ℚ × ℚ :=
  let bp := _calculate_skewed_prices s mid_price skew
  if bp.1 ≥ bp.2 then
    let spread := max 1 ((s.spread_size : ℚ) / 2)
    (mid_price - spread, mid_price + spread)
  else bp

/-- MarketMaker._stabilize_layer -/
def _stabilize_layer (s : MarketMaker) (md : MarketDataView) (eco : EconomyInsightView) :
    MarketMaker × List AgentIntent :=
  let inventory_ratio := _calculate_inventory_ratio s
  let skew := _calculate_skew s inventory_ratio
  let pm := _estimate_price s md eco
  let s1 := pm.1
  let mid_price := pm.2
  let prices := stabilizeTargets s1 mid_price skew
  let bid_price := prices.1
  let ask_price := prices.2
  let quantities := _calculate_skewed_quantities s1 inventory_ratio
  let bid_quantity := quantities.1
  let ask_quantity := quantities.2
  let pc := _selective_stabilize_cancel s1 inventory_ratio bid_price ask_price
  let s2 := pc.1
  let has_equivalent_bid := _has_equivalent_working_order s2 Side.BUY bid_price
  let has_equivalent_ask := _has_equivalent_working_order s2 Side.SELL ask_price
  let pbid : MarketMaker × List AgentIntent :=
    if has_equivalent_bid = false ∧ bid_quantity > 0 ∧ bid_price > 0 then
      let pi := next_intent_id s2
      (pi.1, [AgentIntent.placeOrder pi.2 Side.BUY OrderType.LIMIT bid_quantity
        (some bid_price)])
    else (s2, [])
  let s3 := pbid.1
  let pask : MarketMaker × List AgentIntent :=
    if has_equivalent_ask = false ∧ ask_quantity > 0 ∧ ask_price > 0 then
      let pi := next_intent_id s3
      (pi.1, [AgentIntent.placeOrder pi.2 Side.SELL OrderType.LIMIT ask_quantity
        (some ask_price)])
    else (s3, [])
  let s4 := { pask.1 with last_mid_price := some mid_price }
  (s4, pc.2 ++ pbid.2 ++ pask.2)

/-- MarketMaker._calculate_provide_prices -/
def _calculate_provide_prices (s : MarketMaker) (mid_price : ℚ) : ℚ × ℚ :=
  let half_spread := (s.spread_size : ℚ) / 2
  let bid_price := mid_price - half_spread
  let ask_price := mid_price + half_spread
  let total_fee_per_share := 2 * s.constants.fee_rate * mid_price
  (max (1 / 100) (bid_price - total_fee_per_share / 2),
   max (1 / 100) (ask_price + total_fee_per_share / 2))

/-- MarketMaker._should_refresh_quotes (the PROVIDE layer always passes a
current mid price). -/
def _should_refresh_quotes (s : MarketMaker) (current_mid_price : ℚ) : Bool :=
  let waitBlocked :=
    match s.last_quote_global_tick with
    | some lq => decide ((s.current_global_tick : ℤ) - (lq : ℤ) < s.wait_time)
    | none => false
  if waitBlocked then false
  else if s.last_quote_global_tick = none then true
  else if s.order_filled_this_tick then true
  else if s.layer_changed then true
  else
    let driftHit :=
      match s.last_mid_price with
      | some lmp =>
        let drift := if lmp > 0 then |current_mid_price - lmp| / lmp else 0
        let drift_tolerance := if lmp > 0 then (s.spread_size : ℚ) / (2 * lmp) else 1 / 100
        decide (drift > drift_tolerance)
      | none => false
    if driftHit then true
    else
      let has_working_bid :=
        s.active_bids.any (fun p => p.2.lifecycle = OrderLifecycle.WORKING)
      let has_working_ask :=
        s.active_asks.any (fun p => p.2.lifecycle = OrderLifecycle.WORKING)
      if has_working_bid = false ∨ has_working_ask = false then true
      else false

/-- MarketMaker._provide_layer -/
def _provide_layer (s : MarketMaker) (md : MarketDataView) (eco : EconomyInsightView) :
    MarketMaker × List AgentIntent :=
  let pm := _estimate_price s md eco
  let s1 := pm.1
  let mid_price := pm.2
  let prices := _calculate_provide_prices s1 mid_price
  let bid_price := prices.1
  let ask_price := prices.2
  if bid_price ≥ ask_price then (s1, [])
  else if _should_refresh_quotes s1 mid_price = false then (s1, [])
  else
    let pc := _cancel_non_equivalent_orders s1 bid_price ask_price
    let s2 := pc.1
    let has_equivalent_bid := _has_equivalent_working_order s2 Side.BUY bid_price
    let has_equivalent_ask := _has_equivalent_working_order s2 Side.SELL ask_price
    let pbid : MarketMaker × List AgentIntent :=
      if has_equivalent_bid then (s2, [])
      else
        let bid_quantity := _validate_bid_quantity s2 s2.order_size
        if bid_quantity > 0 then
          let pi := next_intent_id s2
          (pi.1, [AgentIntent.placeOrder pi.2 Side.BUY OrderType.LIMIT bid_quantity
            (some bid_price)])
        else (s2, [])
    let s3 := pbid.1
    let pask : MarketMaker × List AgentIntent :=
      if has_equivalent_ask then (s3, [])
      else
        let ask_quantity := _validate_ask_quantity s3 s3.order_size
        if ask_quantity > 0 then
          let pi := next_intent_id s3
          (pi.1, [AgentIntent.placeOrder pi.2 Side.SELL OrderType.LIMIT ask_quantity
            (some ask_price)])
        else (s3, [])
    let s4 := pask.1
    let intents := pc.2 ++ pbid.2 ++ pask.2
    if intents ≠ [] then
      ({ s4 with last_quote_global_tick := some s4.current_global_tick,
                 last_mid_price := some mid_price }, intents)
    else (s4, intents)

/-- The bookkeeping prefix of MarketMaker.decide (lines 95-114): record the
tick, the layer transition and the inventory-direction crossing, before the
layer dispatch. -/
def decidePre (s : MarketMaker) (view : AgentView) : MarketMaker :=
  let s0 := { s with
    current_micro_tick := view.micro_tick,
    current_global_tick :=
      view.macro_tick * s.constants.simulation_micro_tick + view.micro_tick }
  let current_layer := _determine_current_layer s0
  let lc := Decidable.decide (s0.last_layer_tag ≠ current_layer)
  let s1 := { s0 with layer_changed := lc, last_layer_tag := current_layer }
  let new_ratio := _calculate_inventory_ratio s1
  let s2 :=
    match s1.last_inventory_ratio with
    | some old =>
      if (old - s1.target_inventory_fraction) *
          (new_ratio - s1.target_inventory_fraction) < 0 then
        { s1 with layer_changed := true }
      else s1
    | none => s1
  { s2 with last_inventory_ratio := some new_ratio }

/-- MarketMaker.decide.  `none` models an assertion failure (wrong agent id
or a missing snapshot). -/
def decide (s : MarketMaker) (view : AgentView) : Option (MarketMaker × List AgentIntent) :=
  if view.agent_id ≠ s.agent_id then none
  else
    match view.market_data_view, view.economy_insight_view with
    | some md, some eco =>
      let s0 := { s with
        current_micro_tick := view.micro_tick,
        current_global_tick :=
          view.macro_tick * s.constants.simulation_micro_tick + view.micro_tick }
      let current_layer := _determine_current_layer s0
      let s3 := decidePre s view
      if current_layer = "SURVIVE" then some (_survive_layer s3 md eco)
      else if current_layer = "STABILIZE" then some (_stabilize_layer s3 md eco)
      else some (_provide_layer s3 md eco)
    | _, _ => none

/-- MarketMaker._cleanup_done_orders: purge DONE orders from both caches and
record whether any of them ended FILLED. -/
def _cleanup_done_orders (s : MarketMaker) : MarketMaker :=
  let filledBid := s.active_bids.any (fun p =>
    Decidable.decide
      (p.2.lifecycle = OrderLifecycle.DONE ∧ p.2.end_reason = some OrderEndReasons.FILLED))
  let filledAsk := s.active_asks.any (fun p =>
    Decidable.decide
      (p.2.lifecycle = OrderLifecycle.DONE ∧ p.2.end_reason = some OrderEndReasons.FILLED))
  { s with
    order_filled_this_tick := s.order_filled_this_tick || filledBid || filledAsk,
    active_bids := s.active_bids.filter (fun p => p.2.lifecycle ≠ OrderLifecycle.DONE),
    active_asks := s.active_asks.filter (fun p => p.2.lifecycle ≠ OrderLifecycle.DONE) }

/-- MarketMaker.update: reset the fill flag, fold the non-null order results
into the side caches, then purge DONE orders. -/
def update (s : MarketMaker) (feedback : AgentFeedback) : MarketMaker :=
  let s0 := { s with order_filled_this_tick := false }
  let s1 := feedback.order_results.foldl
    (fun acc p =>
      match p.2 with
      | none => acc
      | some ov =>
        if ov.side = Side.BUY then
          { acc with active_bids := alistInsert acc.active_bids ov.order_id ov }
        else
          { acc with active_asks := alistInsert acc.active_asks ov.order_id ov })
    s0
  _cleanup_done_orders s1

end MAS.MarketMaker

namespace MAS

/-- agents.agents.value_investor.Intention -/
inductive Intention where
  | WAIT
  | ACCUMULATE
  | DISTRIBUTE
  | PARK_CAPITAL
deriving DecidableEq, Repr

/-- agents.agents.value_investor.ValueInvestor: parameters, collaborators and
belief state as one record. -/
structure ValueInvestor where
  agent_id : ℕ
  account_view : AccountView
  constants : AgentConstants
  initial_optimism : ℚ
  stubbornness : ℚ
  belief_update_rate : ℚ
  mispricing_threshold : ℚ
  max_position_fraction : ℚ
  deposit_affinity : ℚ
  deposit_allocation_fraction : ℚ
  deposit_horizon_preference : ℚ
  max_order_size : ℤ
  patience_discount : ℚ
  patience_premium : ℚ
  optimism : ℚ
  belief : ℚ
  perceived_pnl : ℚ
  initial_capital : ℚ
  current_intention : Intention
  active_deposits : List (ℕ × DepositView)
  pending_orders : List (ℕ × OrderView)
  last_known_price : Option ℚ
  intent_id_counter : ℕ
deriving DecidableEq, Repr

end MAS

namespace MAS.ValueInvestor

open MAS

/-- The `intent_id` property: returns the counter and post-increments it. -/
def next_intent_id (s : ValueInvestor) : ValueInvestor × ℕ :=
  ({ s with intent_id_counter := s.intent_id_counter + 1 }, s.intent_id_counter)

/-- ValueInvestor._estimate_market_price: mid price, else last traded price,
else the cached last known price; caches any fresh price. -/
def _estimate_market_price (s : ValueInvestor) (md : MarketDataView) :
    ValueInvestor × Option ℚ :=
  match md.mid_price with
  | some p => ({ s with last_known_price := some p }, some p)
  | none =>
    match md.last_traded_price with
    | some p => ({ s with last_known_price := some p }, some p)
    | none => (s, s.last_known_price)

/-- ValueInvestor._update_optimism -/
def _update_optimism (s : ValueInvestor) : ValueInvestor :=
  if s.perceived_pnl > 0 then
    let delta := s.belief_update_rate * (1 - s.stubbornness)
    { s with optimism := min 1 (s.optimism + delta) }
  else if s.perceived_pnl < 0 then
    let delta := s.belief_update_rate * (1 - s.stubbornness)
    { s with optimism := max 0 (s.optimism - delta) }
  else s

/-- ValueInvestor._update_perceived_pnl -/
def _update_perceived_pnl (s : ValueInvestor) (md : MarketDataView) : ValueInvestor :=
  let pm := _estimate_market_price s md
  let s1 := pm.1
  let market_price := pm.2.getD s1.belief
  let portfolio_value := s1.account_view.cash + (s1.account_view.shares : ℚ) * market_price
  { s1 with perceived_pnl := portfolio_value - s1.initial_capital }

/-- ValueInvestor._update_beliefs: belief from optimism over the TV interval,
then optimism drift, then perceived P&L. -/
def _update_beliefs (s : ValueInvestor) (md : MarketDataView) (eco : EconomyInsightView) :
    ValueInvestor :=
  let TV_low := eco.tv_interval.1
  let TV_high := eco.tv_interval.2
  let s1 := { s with belief := TV_low + s.optimism * (TV_high - TV_low) }
  let s2 := _update_optimism s1
  _update_perceived_pnl s2 md

/-- ValueInvestor._calculate_mispricing: (belief − price)/belief, 0 when no
usable price. -/
def _calculate_mispricing (s : ValueInvestor) (md : MarketDataView) : ValueInvestor × ℚ :=
  let pm := _estimate_market_price s md
  let s1 := pm.1
  match pm.2 with
  | none => (s1, 0)
  | some market_price =>
    if market_price ≤ 0 then (s1, 0)
    else (s1, (s1.belief - market_price) / s1.belief)

/-- ValueInvestor._calculate_position_fraction -/
def _calculate_position_fraction (s : ValueInvestor) : ℚ :=
  match s.last_known_price with
  | none => 0
  | some p =>
    let total_capital := s.account_view.cash + (s.account_view.shares : ℚ) * p
    if total_capital ≤ 0 then 0
    else ((s.account_view.shares : ℚ) * p) / total_capital

/-- The best-scored deposit term of ValueInvestor._evaluate_deposit_opportunity:
score = rate − (1 − horizon_preference)·term/max_term, first maximum wins. -/
def bestDepositTerm (pref : ℚ) (rates : List (ℕ × ℚ)) : Option ℕ :=
  let max_term := rates.foldl (fun m p => max m p.1) 0
  let pick := rates.foldl
    (fun (best : Option (ℕ × ℚ)) p =>
      let score := p.2 - (1 - pref) * ((p.1 : ℚ) / (max_term : ℚ))
      match best with
      | none => some (p.1, score)
      | some b => if score > b.2 then some (p.1, score) else some b)
    none
  pick.map Prod.fst

/-- ValueInvestor._evaluate_deposit_opportunity.  The Python guard
`if best_term:` is truthiness, so a best term of 0 is also rejected. -/
def _evaluate_deposit_opportunity (s : ValueInvestor) (eco : EconomyInsightView) :
    Option (ℕ × ℚ) :=
  if eco.deposit_rates = [] then none
  else
    match bestDepositTerm s.deposit_horizon_preference eco.deposit_rates with
    | none => none
    | some best_term =>
      if best_term = 0 then none
      else
        match eco.deposit_rates.lookup best_term with
        | none => none
        | some best_rate =>
          if best_rate ≥ s.deposit_affinity then some (best_term, best_rate) else none

/-- ValueInvestor._select_intention: the fixed-priority BDI selection. -/
def _select_intention (s : ValueInvestor) (md : MarketDataView) (eco : EconomyInsightView) :
    ValueInvestor :=
  let pm := _calculate_mispricing s md
  let s1 := pm.1
  let mispricing := pm.2
  let position_fraction := _calculate_position_fraction s1
  let deposit_opportunity := _evaluate_deposit_opportunity s1 eco
  if mispricing > s1.mispricing_threshold ∧ position_fraction < s1.max_position_fraction then
    { s1 with current_intention := Intention.ACCUMULATE }
  else if mispricing < -s1.mispricing_threshold ∧ position_fraction > 1 / 10 then
    { s1 with current_intention := Intention.DISTRIBUTE }
  else
    let park : Bool :=
      match deposit_opportunity, s1.last_known_price with
      | some _, some p =>
        let total_wealth := s1.account_view.cash + (s1.account_view.shares : ℚ) * p
        Decidable.decide (total_wealth > 0 ∧ s1.account_view.cash / total_wealth > 1 / 5)
      | _, _ => false
    if park then { s1 with current_intention := Intention.PARK_CAPITAL }
    else { s1 with current_intention := Intention.WAIT }

/-- ValueInvestor._execute_accumulate -/
def _execute_accumulate (s : ValueInvestor) (md : MarketDataView) :
    ValueInvestor × List AgentIntent :=
  if s.account_view.cash ≤ 0 then (s, [])
  else
    let pm := _estimate_market_price s md
    let s1 := pm.1
    match pm.2 with
    | none => (s1, [])
    | some market_price =>
      let shares_affordable :=
        pyInt (s1.account_view.cash / (market_price * (1 + s1.constants.fee_rate)))
      let quantity := min shares_affordable s1.max_order_size
      if quantity ≤ 0 then (s1, [])
      else
        let buy_price := market_price * (1 - s1.patience_discount)
        let pi := next_intent_id s1
        (pi.1, [AgentIntent.placeOrder pi.2 Side.BUY OrderType.LIMIT quantity
          (some buy_price)])

/-- ValueInvestor._execute_distribute -/
def _execute_distribute (s : ValueInvestor) (md : MarketDataView) :
    ValueInvestor × List AgentIntent :=
  if s.account_view.shares ≤ 0 then (s, [])
  else
    let pm := _estimate_market_price s md
    let s1 := pm.1
    match pm.2 with
    | none => (s1, [])
    | some market_price =>
      let quantity := min s1.account_view.shares s1.max_order_size
      let sell_price := market_price * (1 + s1.patience_premium)
      let pi := next_intent_id s1
      (pi.1, [AgentIntent.placeOrder pi.2 Side.SELL OrderType.LIMIT quantity
        (some sell_price)])

/-- ValueInvestor._execute_park_capital -/
def _execute_park_capital (s : ValueInvestor) (eco : EconomyInsightView) :
    ValueInvestor × List AgentIntent :=
  if s.account_view.cash ≤ 0 then (s, [])
  else
    match _evaluate_deposit_opportunity s eco with
    | none => (s, [])
    | some opp =>
      let deposit_amount := s.account_view.cash * s.deposit_allocation_fraction
      if deposit_amount ≤ 0 then (s, [])
      else
        let pi := next_intent_id s
        (pi.1, [AgentIntent.createDeposit pi.2 deposit_amount opp.1])

/-- ValueInvestor._execute_intention -/
def _execute_intention (s : ValueInvestor) (md : MarketDataView) (eco : EconomyInsightView) :
    ValueInvestor × List AgentIntent :=
  match s.current_intention with
  | Intention.WAIT => (s, [])
  | Intention.ACCUMULATE => _execute_accumulate s md
  | Intention.DISTRIBUTE => _execute_distribute s md
  | Intention.PARK_CAPITAL => _execute_park_capital s eco

/-- ValueInvestor.decide: update beliefs, select intention, execute it.
`none` models an assertion failure. -/
def decide (s : ValueInvestor) (view : AgentView) :
    Option (ValueInvestor × List AgentIntent) :=
  if view.agent_id ≠ s.agent_id then none
  else
    match view.economy_insight_view, view.market_data_view with
    | some eco, some md =>
      let s1 := _update_beliefs s md eco
      let s2 := _select_intention s1 md eco
      some (_execute_intention s2 md eco)
    | _, _ => none

/-- ValueInvestor.update: record non-null deposit and order views. -/
def update (s : ValueInvestor) (feedback : AgentFeedback) : ValueInvestor :=
  let s1 := feedback.deposit_results.foldl
    (fun acc p =>
      match p.2 with
      | none => acc
      | some dv =>
        { acc with active_deposits := alistInsert acc.active_deposits dv.deposit_id dv })
    s
  feedback.order_results.foldl
    (fun acc p =>
      match p.2 with
      | none => acc
      | some ov =>
        { acc with pending_orders := alistInsert acc.pending_orders ov.order_id ov })
    s1

end MAS.ValueInvestor

namespace MAS

/-- One call dispatched to the external market collaborator. -/
inductive EnvCall where
  | createOrder (agent_id : ℕ) (order_type : OrderType) (side : Side)
      (quantity : ℤ) (price : Option ℚ)
  | cancelOrder (agent_id : ℕ) (order_id : ℕ)
  | createDeposit (agent_id : ℕ) (term : ℕ) (deposited_cash : ℚ)
deriving DecidableEq, Repr

/-- The external market's responses, as result functions (the environment is
an external collaborator; its internals are out of scope). -/
structure MarketEnv where
  create_order : ℕ → OrderType → Side → ℤ → Option ℚ → OrderView
  create_deposit : ℕ → ℕ → ℚ → DepositView

/-- Does an intent ask for a deposit? (the engine's non-ValueInvestor assert). -/
def AgentIntent.isCreateDeposit : AgentIntent → Bool
  | .createDeposit _ _ _ => true
  | _ => false

/-- SimulationEngine._process_intents: dispatch each intent in order and key
the resulting feedback maps by the intent's own `intent_id` (None for
cancels).  Also returns the list of dispatched environment calls. -/
def _process_intents (env : MarketEnv) (agent_id : ℕ) :
    List AgentIntent → AgentFeedback × List EnvCall
  | [] => ({ agent_id := agent_id, order_results := [], deposit_results := [] }, [])
  | AgentIntent.placeOrder iid side ot q p :: rest =>
    let r := _process_intents env agent_id rest
    ({ r.1 with order_results :=
        (iid, some (env.create_order agent_id ot side q p)) :: r.1.order_results },
     EnvCall.createOrder agent_id ot side q p :: r.2)
  | AgentIntent.cancelOrder iid oid :: rest =>
    let r := _process_intents env agent_id rest
    ({ r.1 with order_results := (iid, none) :: r.1.order_results },
     EnvCall.cancelOrder agent_id oid :: r.2)
  | AgentIntent.createDeposit iid amount term :: rest =>
    let r := _process_intents env agent_id rest
    ({ r.1 with deposit_results :=
        (iid, some (env.create_deposit agent_id term amount)) :: r.1.deposit_results },
     EnvCall.createDeposit agent_id term amount :: r.2)

/-- The `decide`/`update` capability interface of a strategy, for the engine. -/
structure AgentImpl (σ : Type) where
  is_value_investor : Bool
  decideFn : σ → AgentView → Option (σ × List AgentIntent)
  updateFn : σ → AgentFeedback → σ

/-- One iteration of SimulationEngine._agent_loop for a single agent:
decide, skip entirely on an empty intent list (`continue`), otherwise
dispatch the intents and deliver the feedback to `update`.  `none` models an
aborted tick (assertion failure). -/
def _agent_loop_step {σ : Type} (impl : AgentImpl σ) (env : MarketEnv)
    (agent_id : ℕ) (st : σ) (view : AgentView) : Option (σ × List EnvCall) :=
  match impl.decideFn st view with
  | none => none
  | some dr =>
    if dr.2 = [] then some (dr.1, [])
    else if impl.is_value_investor = false ∧ dr.2.any AgentIntent.isCreateDeposit then none
    else
      let pf := _process_intents env agent_id dr.2
      some (impl.updateFn dr.1 pf.1, pf.2)

/-- The MarketMaker strategy packaged behind the engine's agent interface. -/
def marketMakerImpl : AgentImpl MarketMaker :=
  { is_value_investor := false,
    decideFn := MarketMaker.decide,
    updateFn := MarketMaker.update }

/-- The agent classes the population is built from. -/
inductive AgentKind where
  | MarketMakerK
  | ValueInvestorK
  | MomentumTraderK
  | NoiseTraderK
deriving DecidableEq, Repr, Inhabited

/-- Deterministic model of the population PRNG `random.Random(seed)`:
a linear congruential state step. -/
structure Rng where
  state : ℕ
deriving DecidableEq, Repr

/-- One PRNG draw: step the state and produce a value below `n` (for n > 0). -/
def rngNext (g : Rng) (n : ℕ) : Rng × ℕ :=
  let s := (g.state * 1103515245 + 12345) % 2147483648
  ({ state := s }, s % n)

/-- Deterministic model of `rng.shuffle`: repeatedly draw an index and move
that element to the front, consuming PRNG state. -/
def drawShuffle {α : Type} : ℕ → List α → Rng → List α × Rng
  | 0, _, g => ([], g)
  | n + 1, l, g =>
    match l with
    | [] => ([], g)
    | y :: ys =>
      let gp := rngNext g (y :: ys).length
      let i := gp.2 % (y :: ys).length
      let x := (y :: ys).getD i y
      let rest := (y :: ys).eraseIdx i
      let pr := drawShuffle n rest gp.1
      (x :: pr.1, pr.2)

/-- The seeded shuffle of a candidate list. -/
def shuffle {α : Type} (l : List α) (g : Rng) : List α × Rng :=
  drawShuffle l.length l g

/-- simulation.core.agent_manager.AgentManager: the population (insertion
order preserved), the value-investor id set, and the population RNG. -/
structure AgentManager where
  agents : List (ℕ × AgentKind)
  value_investor_ids : List ℕ
  rng : Rng
deriving DecidableEq, Repr

/-- AgentManager.__init__ + initialize_agents: contiguous class-scoped id
blocks (10000+ market makers, 20000+ value investors, 30000+ momentum
traders, 40000+ noise traders) and the RNG seeded once from the global seed.
Parameter sampling only consumes the RNG deterministically and is not
modelled further. -/
def initializeAgents (seed mm_count vi_count mt_count nt_count : ℕ) : AgentManager :=
  { agents :=
      (List.range mm_count).map (fun i => (10000 + i, AgentKind.MarketMakerK)) ++
      (List.range vi_count).map (fun i => (20000 + i, AgentKind.ValueInvestorK)) ++
      (List.range mt_count).map (fun i => (30000 + i, AgentKind.MomentumTraderK)) ++
      (List.range nt_count).map (fun i => (40000 + i, AgentKind.NoiseTraderK)),
    value_investor_ids := (List.range vi_count).map (fun i => 20000 + i),
    rng := { state := seed } }

/-- AgentManager.macro_tick_agents: shuffle the full population. -/
def macro_tick_agents (m : AgentManager) : List (ℕ × AgentKind) × AgentManager :=
  let pr := shuffle m.agents m.rng
  (pr.1, { m with rng := pr.2 })

/-- AgentManager.micro_tick_agents: shuffle the population without the
value investors. -/
def micro_tick_agents (m : AgentManager) : List (ℕ × AgentKind) × AgentManager :=
  let candidates := m.agents.filter (fun p => !(m.value_investor_ids.contains p.1))
  let pr := shuffle candidates m.rng
  (pr.1, { m with rng := pr.2 })

/-- The per-tick execution orders of a run: `true` marks a micro tick
(micro index ≠ 0 in SimulationEngine.run), `false` a macro tick. -/
def runSchedule (m : AgentManager) : List Bool → List (Bool × List (ℕ × AgentKind))
  | [] => []
  | isMicro :: rest =>
    let pr := if isMicro then micro_tick_agents m else macro_tick_agents m
    (isMicro, pr.1) :: runSchedule pr.2 rest

/-- The manager's class bookkeeping is coherent: every agent tagged as a
ValueInvestor in the population dict is listed in the value-investor id set
(initializeAgents registers each agent in both). -/
def viWellTagged (m : AgentManager) : Prop :=
  ∀ aid k, (aid, k) ∈ m.agents → k = AgentKind.ValueInvestorK →
    aid ∈ m.value_investor_ids

/-- The intent ids carried by a batch of intents, in emission order. -/
def intentIds (l : List AgentIntent) : List ℕ := l.map AgentIntent.intentIdOf

/-- `IdsFrom n l m`: the batch `l` carries the consecutive ids n, n+1, …, and
`m` is the counter value after the batch. -/
def IdsFrom (n : ℕ) (l : List AgentIntent) (m : ℕ) : Prop :=
  intentIds l = List.range' n l.length ∧ m = n + l.length

/-- The ids of the WORKING orders of a cache, in cache order. -/
def workingIds (orders : List (ℕ × OrderView)) : List ℕ :=
  (orders.filter fun p =>
    Decidable.decide (p.2.lifecycle = OrderLifecycle.WORKING)).map Prod.fst

/-- The ids of the WORKING orders of a cache that are not quote-equivalent to
the given target price on the given side, in cache order. -/
def nonEquivIds (orders : List (ℕ × OrderView)) (target : ℚ) (side : Side) : List ℕ :=
  (orders.filter fun p => Decidable.decide (p.2.lifecycle = OrderLifecycle.WORKING ∧
    MarketMaker._is_quote_equivalent p.2 target side = false)).map Prod.fst

/-- A run of CancelOrder intents with consecutive ids starting at `n`. -/
def cancelIntentsFrom (n : ℕ) (oids : List ℕ) : List AgentIntent :=
  List.zipWith AgentIntent.cancelOrder (List.range' n oids.length) oids

/-! Concrete sample states used by the evaluation witnesses. -/

/-- Sample constants: 10 micro ticks per macro tick, zero fees. -/
def constantsW : AgentConstants :=
  { simulation_macro_tick := 1, simulation_micro_tick := 10, fee_rate := 0 }

/-- A WORKING buy order resting in a cache. -/
def ovWork : OrderView :=
  { order_id := 7, side := Side.BUY, lifecycle := OrderLifecycle.WORKING,
    end_reason := none, price := none }

/-- A DONE (filled) sell order, as it comes back in feedback. -/
def ovDone : OrderView :=
  { order_id := 8, side := Side.SELL, lifecycle := OrderLifecycle.DONE,
    end_reason := some OrderEndReasons.FILLED, price := none }

/-- A baseline MarketMaker state. -/
def mmBase : MarketMaker :=
  { agent_id := 1,
    account_view := { cash := 1000, shares := 50 },
    constants := constantsW,
    target_inventory_fraction := 1 / 2,
    risk_lower_bound := 1 / 5,
    risk_upper_bound := 4 / 5,
    stabilization_tolerance := 1 / 10,
    spread_size := 2,
    order_size := 10,
    wait_time := 3,
    skew_factor := 50,
    active_bids := [],
    active_asks := [],
    last_known_price := none,
    current_micro_tick := 0,
    last_mid_price := none,
    last_inventory_ratio := none,
    layer_changed := false,
    order_filled_this_tick := false,
    last_layer_tag := "PROVIDE",
    current_global_tick := 0,
    last_quote_global_tick := none,
    intent_id_counter := 0 }

/-- A baseline ValueInvestor state with belief 100. -/
def viBase : ValueInvestor :=
  { agent_id := 2,
    account_view := { cash := 1000, shares := 0 },
    constants := constantsW,
    initial_optimism := 1 / 2,
    stubbornness := 0,
    belief_update_rate := 1 / 10,
    mispricing_threshold := 3 / 100,
    max_position_fraction := 1 / 2,
    deposit_affinity := 1,
    deposit_allocation_fraction := 1 / 2,
    deposit_horizon_preference := 1 / 2,
    max_order_size := 10,
    patience_discount := 0,
    patience_premium := 0,
    optimism := 1 / 2,
    belief := 100,
    perceived_pnl := 0,
    initial_capital := 1000,
    current_intention := Intention.WAIT,
    active_deposits := [],
    pending_orders := [],
    last_known_price := none,
    intent_id_counter := 0 }

/-- A market snapshot with mid price 95 and nothing else. -/
def md95 : MarketDataView :=
  { mid_price := some 95, micro_price := none, last_traded_price := none,
    L1_bids := none, L1_asks := none }

/-- An economy snapshot with fair-value interval [90, 110] and no deposits. -/
def eco90110 : EconomyInsightView :=
  { tv_interval := (90, 110), deposit_rates := [] }

/-- A view for agent 1 carrying both snapshots. -/
def viewW : AgentView :=
  { agent_id := 1, timestamp := 0, macro_tick := 0, micro_tick := 0,
    market_data_view := some md95, economy_insight_view := some eco90110 }

/-- A MarketMaker state deep in SURVIVE territory (ratio ≈ 0.0099 < 0.2). -/
def mmSurvive : MarketMaker :=
  { mmBase with
    account_view := { cash := 10, shares := 100 },
    last_known_price := some 10,
    active_bids := [(3, ovWork)] }

/-- A market snapshot with mid price 1 and nothing else. -/
def md1 : MarketDataView :=
  { mid_price := some 1, micro_price := none, last_traded_price := none,
    L1_bids := none, L1_asks := none }

/-- A view for agent 1 carrying the mid-1 snapshot. -/
def viewF : AgentView :=
  { agent_id := 1, timestamp := 0, macro_tick := 0, micro_tick := 0,
    market_data_view := some md1, economy_insight_view := some eco90110 }

/-- A SURVIVE state (ratio 0 < 0.2, no cash) where the panic sell price
mid - 5*spread = 1 - 10 is negative, so the 0.01 floor binds. -/
def mmFloor : MarketMaker :=
  { mmBase with
    account_view := { cash := 0, shares := 100 },
    last_known_price := some 1 }

/-- A MarketMaker with an empty account: PROVIDE computes zero quantities and
decide returns no intents. -/
def mmEmpty : MarketMaker :=
  { mmBase with
    account_view := { cash := 0, shares := 0 } }

/-- The state mmEmpty reaches after one decide on viewW. -/
def mmDecided : MarketMaker :=
  { mmEmpty with
    last_known_price := some 95,
    last_inventory_ratio := some (1 / 2) }

/-- A dummy external market returning fixed views. -/
def envW : MarketEnv :=
  { create_order := fun _ _ _ _ _ => ovWork,
    create_deposit := fun _ _ _ => { deposit_id := 0, maturity_macro_tick := 0 } }

/-- A WORKING sell order far from any sensible quote. -/
def ovAsk200 : OrderView :=
  { order_id := 4, side := Side.SELL, lifecycle := OrderLifecycle.WORKING,
    end_reason := none, price := some 200 }

/-- A MarketMaker in STABILIZE territory (ratio 140/197 ≈ 0.71) with one
working order on each side. -/
def mmStab : MarketMaker :=
  { mmBase with
    account_view := { cash := 7000, shares := 30 },
    last_known_price := some 95,
    active_bids := [(3, ovWork)],
    active_asks := [(4, ovAsk200)] }

/-- mmStab after the decide bookkeeping prefix. -/
def mmStabPre : MarketMaker :=
  { mmStab with
    layer_changed := true,
    last_layer_tag := "STABILIZE",
    last_inventory_ratio := some (140 / 197) }

/-- mmStabPre after price estimation. -/
def mmStabEst : MarketMaker := { mmStabPre with last_known_price := some 95 }

/-- mmStabEst after the selective cancel consumed one intent id. -/
def mmStabCan : MarketMaker := { mmStabEst with intent_id_counter := 1 }

/-- The state mmStab reaches after one full decide on viewW. -/
def mmStabRes : MarketMaker :=
  { mmStab with
    last_mid_price := some 95,
    last_inventory_ratio := some (140 / 197),
    layer_changed := true,
    last_layer_tag := "STABILIZE",
    intent_id_counter := 3 }

end MAS

/-! ## Theorems -/

namespace MAS

/-- C4: MomentumTrader's weighted momentum signal is strictly positive on the
price history [100, 101, 102], strictly negative on [102, 101, 100], and
exactly 0 for every price history of length less than 2. -/
theorem momentum_signal_directions :
    0 < MomentumTrader._calculate_momentum_signal [100, 101, 102] ∧
    MomentumTrader._calculate_momentum_signal [102, 101, 100] < 0 ∧
    ∀ l : List ℚ, l.length < 2 → MomentumTrader._calculate_momentum_signal l = 0 := by
  refine ⟨?_, ?_, ?_⟩
  · norm_num [MomentumTrader._calculate_momentum_signal, List.range']
  · norm_num [MomentumTrader._calculate_momentum_signal, List.range']
  · intro l h
    simp [MomentumTrader._calculate_momentum_signal, h]

/-- Witness for C4: the short-history clause evaluated on one sample. -/
theorem momentum_signal_directions_witness :
    MomentumTrader._calculate_momentum_signal [(5 : ℚ)] = 0 :=
  momentum_signal_directions.2.2 [(5 : ℚ)] (by decide)

/-- C5 counterexample: on a view with no top-of-book on either side (total
size 0) the code returns amplifier 1.0, while the claimed formula
`1/clamp(total/baseline, 0.5, 2.0)` yields 2.0. -/
theorem liquidity_amplifier_empty_book_counterexample :
    MomentumTrader._calculate_liquidity_amplifier 100
      { mid_price := none, micro_price := none, last_traded_price := none,
        L1_bids := none, L1_asks := none } ≠
    MomentumTrader.specLiquidityAmplifier 100
      { mid_price := none, micro_price := none, last_traded_price := none,
        L1_bids := none, L1_asks := none } := by
  norm_num [MomentumTrader._calculate_liquidity_amplifier,
    MomentumTrader.specLiquidityAmplifier, MomentumTrader.totalTopOfBookSize]

/-- C5 (amended): the amplifier equals 1/clamp(total/baseline, 0.5, 2.0)
whenever the total top-of-book size is nonzero; when it is zero the amplifier
is 1; and over nonzero totals a thinner book never gets a smaller amplifier
than a deeper one. -/
theorem liquidity_amplifier_amended (baseline : ℤ) (md md1 md2 : MarketDataView) :
    (MomentumTrader.totalTopOfBookSize md ≠ 0 →
      MomentumTrader._calculate_liquidity_amplifier baseline md =
        MomentumTrader.specLiquidityAmplifier baseline md) ∧
    (MomentumTrader.totalTopOfBookSize md = 0 →
      MomentumTrader._calculate_liquidity_amplifier baseline md = 1) ∧
    (0 < baseline →
      MomentumTrader.totalTopOfBookSize md1 ≠ 0 →
      MomentumTrader.totalTopOfBookSize md2 ≠ 0 →
      MomentumTrader.totalTopOfBookSize md1 ≤ MomentumTrader.totalTopOfBookSize md2 →
      MomentumTrader._calculate_liquidity_amplifier baseline md2 ≤
        MomentumTrader._calculate_liquidity_amplifier baseline md1) := by
  refine ⟨?_, ?_, ?_⟩
  · intro h
    simp only [MomentumTrader._calculate_liquidity_amplifier,
      MomentumTrader.specLiquidityAmplifier, MomentumTrader.totalTopOfBookSize] at h ⊢
    rw [if_neg h]
  · intro h
    simp only [MomentumTrader._calculate_liquidity_amplifier,
      MomentumTrader.totalTopOfBookSize] at h ⊢
    rw [if_pos h]
  · intro hb h1 h2 hle
    have e1 : MomentumTrader._calculate_liquidity_amplifier baseline md1 =
        1 / max (1 / 2)
          (min 2 ((MomentumTrader.totalTopOfBookSize md1 : ℚ) / (baseline : ℚ))) := by
      simp only [MomentumTrader._calculate_liquidity_amplifier,
        MomentumTrader.totalTopOfBookSize] at h1 ⊢
      rw [if_neg h1]
    have e2 : MomentumTrader._calculate_liquidity_amplifier baseline md2 =
        1 / max (1 / 2)
          (min 2 ((MomentumTrader.totalTopOfBookSize md2 : ℚ) / (baseline : ℚ))) := by
      simp only [MomentumTrader._calculate_liquidity_amplifier,
        MomentumTrader.totalTopOfBookSize] at h2 ⊢
      rw [if_neg h2]
    rw [e1, e2]
    have hbq : (0 : ℚ) < (baseline : ℚ) := by exact_mod_cast hb
    have hv : ((MomentumTrader.totalTopOfBookSize md1 : ℤ) : ℚ) ≤
        ((MomentumTrader.totalTopOfBookSize md2 : ℤ) : ℚ) := by exact_mod_cast hle
    apply one_div_le_one_div_of_le
    · exact lt_of_lt_of_le (by norm_num) (le_max_left _ _)
    · gcongr

/-- The price-estimation step of the ValueInvestor only touches
`last_known_price`; the belief and decision parameters are untouched. -/
theorem estimate_market_price_frame (s : ValueInvestor) (md : MarketDataView) :
    (ValueInvestor._estimate_market_price s md).1.mispricing_threshold = s.mispricing_threshold ∧
    (ValueInvestor._estimate_market_price s md).1.max_position_fraction =
      s.max_position_fraction ∧
    (ValueInvestor._estimate_market_price s md).1.belief = s.belief := by
  unfold ValueInvestor._estimate_market_price
  rcases md.mid_price with _ | p
  · rcases md.last_traded_price with _ | q <;> simp
  · simp

/-- The mispricing computation passes the decision parameters through. -/
theorem mispricing_frame (s : ValueInvestor) (md : MarketDataView) :
    (ValueInvestor._calculate_mispricing s md).1.mispricing_threshold = s.mispricing_threshold ∧
    (ValueInvestor._calculate_mispricing s md).1.max_position_fraction =
      s.max_position_fraction := by
  have hf := estimate_market_price_frame s md
  unfold ValueInvestor._calculate_mispricing
  rcases h : (ValueInvestor._estimate_market_price s md).2 with _ | p
  · simp only [h]; exact ⟨hf.1, hf.2.1⟩
  · by_cases hp : p ≤ 0 <;> simp only [h, hp, if_true, if_false, ite_true, ite_false] <;>
      exact ⟨hf.1, hf.2.1⟩

/-- C6: with TV interval [90, 110] and optimism 0.5 the updated belief is
exactly 100; whenever the mispricing exceeds the threshold and the position
fraction is below the cap, the selected intention is ACCUMULATE (hence
neither DISTRIBUTE nor PARK_CAPITAL that tick); and the selection is total,
always picking exactly one of the four intentions. -/
theorem value_investor_accumulate_priority :
    (∀ (s : ValueInvestor) (md : MarketDataView) (eco : EconomyInsightView),
      eco.tv_interval = (90, 110) → s.optimism = 1 / 2 →
      (ValueInvestor._update_beliefs s md eco).belief = 100) ∧
    (∀ (s : ValueInvestor) (md : MarketDataView) (eco : EconomyInsightView),
      (ValueInvestor._calculate_mispricing s md).2 > s.mispricing_threshold →
      ValueInvestor._calculate_position_fraction
          (ValueInvestor._calculate_mispricing s md).1 < s.max_position_fraction →
      (ValueInvestor._select_intention s md eco).current_intention = Intention.ACCUMULATE) ∧
    (∀ (s : ValueInvestor) (md : MarketDataView) (eco : EconomyInsightView),
      (ValueInvestor._select_intention s md eco).current_intention = Intention.WAIT ∨
      (ValueInvestor._select_intention s md eco).current_intention = Intention.ACCUMULATE ∨
      (ValueInvestor._select_intention s md eco).current_intention = Intention.DISTRIBUTE ∨
      (ValueInvestor._select_intention s md eco).current_intention =
        Intention.PARK_CAPITAL) := by
  refine ⟨?_, ?_, ?_⟩
  · intro s md eco he ho
    have hb : ∀ t : ValueInvestor, (ValueInvestor._update_optimism t).belief = t.belief := by
      intro t
      unfold ValueInvestor._update_optimism
      by_cases hp : t.perceived_pnl > 0
      · simp [hp]
      · by_cases hn : t.perceived_pnl < 0 <;> simp [hp, hn]
    have hc : ∀ (t : ValueInvestor) (m : MarketDataView),
        (ValueInvestor._update_perceived_pnl t m).belief = t.belief := by
      intro t m
      have := estimate_market_price_frame t m
      unfold ValueInvestor._update_perceived_pnl
      simp [this.2.2]
    unfold ValueInvestor._update_beliefs
    rw [hc, hb]
    simp [he, ho]
    norm_num
  · intro s md eco h1 h2
    have hm := mispricing_frame s md
    unfold ValueInvestor._select_intention
    rw [if_pos]
    constructor
    · rw [hm.1]; exact h1
    · rw [hm.2]; exact h2
  · intro s md eco
    simp only [ValueInvestor._select_intention]
    split_ifs <;> simp

/-- Witness for C6: belief 100 and ACCUMULATE selection on a concrete state
(belief 100, mid price 95, threshold 0.03, empty position). -/
theorem value_investor_accumulate_priority_witness :
    (ValueInvestor._update_beliefs viBase md95 eco90110).belief = 100 ∧
    (ValueInvestor._select_intention viBase md95 eco90110).current_intention =
      Intention.ACCUMULATE :=
  ⟨value_investor_accumulate_priority.1 viBase md95 eco90110 rfl rfl,
   value_investor_accumulate_priority.2.1 viBase md95 eco90110
    (by norm_num [ValueInvestor._calculate_mispricing, ValueInvestor._estimate_market_price,
      viBase, md95])
    (by norm_num [ValueInvestor._calculate_mispricing, ValueInvestor._estimate_market_price,
      ValueInvestor._calculate_position_fraction, viBase, md95])⟩

/-- C9: MarketMaker.update is total on arbitrary feedback (any subset of
intents may have no result or a None result) and after it runs no DONE order
remains in either local cache. -/
theorem mm_update_purges_done_orders (s : MarketMaker) (feedback : AgentFeedback) :
    (∀ p ∈ (MarketMaker.update s feedback).active_bids,
        p.2.lifecycle = OrderLifecycle.WORKING) ∧
    (∀ p ∈ (MarketMaker.update s feedback).active_asks,
        p.2.lifecycle = OrderLifecycle.WORKING) := by
  have key : ∀ t : MarketMaker,
      (∀ p ∈ (MarketMaker._cleanup_done_orders t).active_bids,
          p.2.lifecycle = OrderLifecycle.WORKING) ∧
      (∀ p ∈ (MarketMaker._cleanup_done_orders t).active_asks,
          p.2.lifecycle = OrderLifecycle.WORKING) := by
    intro t
    constructor <;>
    · intro p hp
      simp only [MarketMaker._cleanup_done_orders, List.mem_filter] at hp
      rcases hp with ⟨-, h⟩
      cases hl : p.2.lifecycle with
      | WORKING => rfl
      | DONE => simp [hl] at h
  simpa only [MarketMaker.update] using key _

/-- Witness for C9: a feedback batch with one None result and one DONE fill;
the surviving cached bid is WORKING. -/
theorem mm_update_purges_done_orders_witness :
    ovWork.lifecycle = OrderLifecycle.WORKING :=
  (mm_update_purges_done_orders { mmBase with active_bids := [(7, ovWork)] }
      { agent_id := 1, order_results := [(0, some ovDone), (1, none)],
        deposit_results := [] }).1
    (7, ovWork)
    (by simp [MarketMaker.update, MarketMaker._cleanup_done_orders, alistInsert,
      ovWork, ovDone])

/-- Witness for C5 (amended): all three clauses discharged on concrete books. -/
theorem liquidity_amplifier_amended_witness :
    (MomentumTrader._calculate_liquidity_amplifier 100
        { mid_price := none, micro_price := none, last_traded_price := none,
          L1_bids := some (10, 30, 1), L1_asks := some (11, 20, 1) } =
      MomentumTrader.specLiquidityAmplifier 100
        { mid_price := none, micro_price := none, last_traded_price := none,
          L1_bids := some (10, 30, 1), L1_asks := some (11, 20, 1) }) ∧
    (MomentumTrader._calculate_liquidity_amplifier 100
        { mid_price := none, micro_price := none, last_traded_price := none,
          L1_bids := none, L1_asks := none } = 1) ∧
    (MomentumTrader._calculate_liquidity_amplifier 100
        { mid_price := none, micro_price := none, last_traded_price := none,
          L1_bids := some (10, 200, 1), L1_asks := none } ≤
      MomentumTrader._calculate_liquidity_amplifier 100
        { mid_price := none, micro_price := none, last_traded_price := none,
          L1_bids := some (10, 30, 1), L1_asks := some (11, 20, 1) }) :=
  ⟨(liquidity_amplifier_amended 100
      { mid_price := none, micro_price := none, last_traded_price := none,
        L1_bids := some (10, 30, 1), L1_asks := some (11, 20, 1) }
      { mid_price := none, micro_price := none, last_traded_price := none,
        L1_bids := none, L1_asks := none }
      { mid_price := none, micro_price := none, last_traded_price := none,
        L1_bids := none, L1_asks := none }).1
      (by norm_num [MomentumTrader.totalTopOfBookSize]),
   (liquidity_amplifier_amended 100
      { mid_price := none, micro_price := none, last_traded_price := none,
        L1_bids := none, L1_asks := none }
      { mid_price := none, micro_price := none, last_traded_price := none,
        L1_bids := none, L1_asks := none }
      { mid_price := none, micro_price := none, last_traded_price := none,
        L1_bids := none, L1_asks := none }).2.1
      (by norm_num [MomentumTrader.totalTopOfBookSize]),
   (liquidity_amplifier_amended 100
      { mid_price := none, micro_price := none, last_traded_price := none,
        L1_bids := none, L1_asks := none }
      { mid_price := none, micro_price := none, last_traded_price := none,
        L1_bids := some (10, 30, 1), L1_asks := some (11, 20, 1) }
      { mid_price := none, micro_price := none, last_traded_price := none,
        L1_bids := some (10, 200, 1), L1_asks := none }).2.2
      (by norm_num)
      (by norm_num [MomentumTrader.totalTopOfBookSize])
      (by norm_num [MomentumTrader.totalTopOfBookSize])
      (by norm_num [MomentumTrader.totalTopOfBookSize])⟩

end MAS

namespace MAS

/-- `cancelIntentsFrom n oids` carries ids n, n+1, … and has one intent per
order id. -/
theorem cancelIntentsFrom_ids : ∀ (oids : List ℕ) (n : ℕ),
    intentIds (cancelIntentsFrom n oids) = List.range' n oids.length ∧
    (cancelIntentsFrom n oids).length = oids.length := by
  intro oids
  induction oids with
  | nil => intro n; simp [cancelIntentsFrom, intentIds]
  | cons hd tl ih =>
    intro n
    have h := ih (n + 1)
    simp only [cancelIntentsFrom, intentIds, List.length_cons, List.range'_succ,
      List.zipWith_cons_cons, List.map_cons] at h ⊢
    refine ⟨?_, by rw [h.2]⟩
    rw [h.1]
    rfl

/-- Splitting a consecutive cancel run at a list append. -/
theorem cancelIntentsFrom_append : ∀ (l1 l2 : List ℕ) (n : ℕ),
    cancelIntentsFrom n (l1 ++ l2) =
      cancelIntentsFrom n l1 ++ cancelIntentsFrom (n + l1.length) l2 := by
  intro l1
  induction l1 with
  | nil => intro l2 n; simp [cancelIntentsFrom]
  | cons hd tl ih =>
    intro l2 n
    simp only [List.cons_append, cancelIntentsFrom, List.length_append, List.length_cons,
      List.range'_succ, List.zipWith_cons_cons]
    have ih2 := ih l2 (n + 1)
    simp only [cancelIntentsFrom, List.length_append] at ih2
    rw [ih2, show n + (tl.length + 1) = n + 1 + tl.length from by omega]

/-- Everything in a cancel run is a CancelOrder aimed at one of the ids. -/
theorem cancelIntentsFrom_mem : ∀ (oids : List ℕ) (n : ℕ) (x : AgentIntent),
    x ∈ cancelIntentsFrom n oids → ∃ i oid, x = AgentIntent.cancelOrder i oid ∧ oid ∈ oids := by
  intro oids
  induction oids with
  | nil => intro n x hx; simp [cancelIntentsFrom] at hx
  | cons hd tl ih =>
    intro n x hx
    simp only [cancelIntentsFrom, List.length_cons, List.range'_succ,
      List.zipWith_cons_cons, List.mem_cons] at hx
    rcases hx with h | h
    · exact ⟨n, hd, h, List.mem_cons_self _ _⟩
    · obtain ⟨i, oid, hx, hmem⟩ := ih (n + 1) x h
      exact ⟨i, oid, hx, List.mem_cons_of_mem _ hmem⟩

/-- `cancelWorking` only advances the intent counter and emits one
CancelOrder, in cache order, for each WORKING order. -/
theorem cancelWorking_eq : ∀ (orders : List (ℕ × OrderView)) (s : MarketMaker),
    MarketMaker.cancelWorking s orders =
      ({ s with intent_id_counter := s.intent_id_counter + (workingIds orders).length },
       cancelIntentsFrom s.intent_id_counter (workingIds orders)) := by
  intro orders
  induction orders with
  | nil => intro s; simp [MarketMaker.cancelWorking, workingIds, cancelIntentsFrom]
  | cons hd tl ih =>
    intro s
    rcases hd with ⟨oid, ov⟩
    by_cases hw : ov.lifecycle = OrderLifecycle.WORKING
    · simp only [MarketMaker.cancelWorking, hw, if_true, ite_true, MarketMaker.next_intent_id, ih,
        workingIds, List.filter_cons, decide_eq_true_eq, cancelIntentsFrom]
      simp only [hw, if_true, ite_true, List.map_cons, List.length_cons, List.range',
        Prod.mk.injEq]
      refine ⟨?_, rfl⟩
      congr 1
      omega
    · simp only [MarketMaker.cancelWorking, hw, if_false, ite_false, ih, workingIds,
        List.filter_cons, decide_eq_true_eq, cancelIntentsFrom]

/-- `cancelNonEquivalent` only advances the intent counter and emits one
CancelOrder, in cache order, for each non-equivalent WORKING order. -/
theorem cancelNonEquivalent_eq :
    ∀ (orders : List (ℕ × OrderView)) (s : MarketMaker) (target : ℚ) (side : Side),
    MarketMaker.cancelNonEquivalent s orders target side =
      ({ s with intent_id_counter :=
          s.intent_id_counter + (nonEquivIds orders target side).length },
       cancelIntentsFrom s.intent_id_counter (nonEquivIds orders target side)) := by
  intro orders
  induction orders with
  | nil =>
    intro s target side
    simp [MarketMaker.cancelNonEquivalent, nonEquivIds, cancelIntentsFrom]
  | cons hd tl ih =>
    intro s target side
    rcases hd with ⟨oid, ov⟩
    by_cases hw : ov.lifecycle = OrderLifecycle.WORKING ∧
        MarketMaker._is_quote_equivalent ov target side = false
    · simp only [MarketMaker.cancelNonEquivalent, hw, if_true, ite_true,
        MarketMaker.next_intent_id, ih, nonEquivIds, List.filter_cons, decide_eq_true_eq,
        cancelIntentsFrom]
      simp only [hw, and_self, if_true, ite_true, List.map_cons, List.length_cons,
        List.range'_succ, Prod.mk.injEq, decide_True]
      refine ⟨?_, rfl⟩
      congr 1
      omega
    · simp only [MarketMaker.cancelNonEquivalent, hw, if_false, ite_false, ih, nonEquivIds,
        List.filter_cons, decide_eq_true_eq]

/-- Price estimation only touches `last_known_price`. -/
theorem estimate_price_eq (s : MarketMaker) (md : MarketDataView) (eco : EconomyInsightView) :
    MarketMaker._estimate_price s md eco =
      ({ s with last_known_price := (MarketMaker._estimate_price s md eco).1.last_known_price },
       (MarketMaker._estimate_price s md eco).2) := by
  unfold MarketMaker._estimate_price
  rcases md.mid_price with _ | p
  · rcases md.micro_price with _ | p
    · rcases md.last_traded_price with _ | p
      · rcases h : s.last_known_price with _ | p <;> simp only [h] <;>
          (conv_rhs => rw [← h])
      · simp
    · simp
  · simp

/-- The estimated price only depends on the snapshots and the cached price. -/
theorem estimate_price_congr (s t : MarketMaker) (md : MarketDataView)
    (eco : EconomyInsightView) (h : t.last_known_price = s.last_known_price) :
    (MarketMaker._estimate_price t md eco).2 = (MarketMaker._estimate_price s md eco).2 := by
  unfold MarketMaker._estimate_price
  rcases md.mid_price with _ | p
  · rcases md.micro_price with _ | p
    · rcases md.last_traded_price with _ | p
      · rw [h]; rcases hl : s.last_known_price with _ | p <;> simp [hl]
      · simp
    · simp
  · simp

/-- `_cancel_all_orders`: one CancelOrder per WORKING order, bids first. -/
theorem cancel_all_orders_eq (s : MarketMaker) :
    MarketMaker._cancel_all_orders s =
      ({ s with intent_id_counter := s.intent_id_counter +
          (workingIds s.active_bids ++ workingIds s.active_asks).length },
       cancelIntentsFrom s.intent_id_counter
         (workingIds s.active_bids ++ workingIds s.active_asks)) := by
  unfold MarketMaker._cancel_all_orders
  simp only [cancelWorking_eq, cancelIntentsFrom_append, List.length_append, Prod.mk.injEq]
  constructor
  · congr 1
    omega
  · trivial

/-- The inventory ratio only depends on the cached price, the account and the
target fraction. -/
theorem ratio_congr (s t : MarketMaker) (h1 : t.last_known_price = s.last_known_price)
    (h2 : t.account_view = s.account_view)
    (h3 : t.target_inventory_fraction = s.target_inventory_fraction) :
    MarketMaker._calculate_inventory_ratio t = MarketMaker._calculate_inventory_ratio s := by
  unfold MarketMaker._calculate_inventory_ratio
  rw [h1, h2, h3]

end MAS

namespace MAS

/-- The current layer ignores the tick counters. -/
theorem determine_layer_ticks (s : MarketMaker) (a b : ℕ) :
    MarketMaker._determine_current_layer
      { s with current_micro_tick := a, current_global_tick := b } =
    MarketMaker._determine_current_layer s := rfl

/-- The bookkeeping prefix of decide leaves the caches, the account, the
parameters, the cached prices and the intent counter untouched. -/
theorem decidePre_frame (s : MarketMaker) (view : AgentView) :
    (MarketMaker.decidePre s view).active_bids = s.active_bids ∧
    (MarketMaker.decidePre s view).active_asks = s.active_asks ∧
    (MarketMaker.decidePre s view).account_view = s.account_view ∧
    (MarketMaker.decidePre s view).constants = s.constants ∧
    (MarketMaker.decidePre s view).last_known_price = s.last_known_price ∧
    (MarketMaker.decidePre s view).spread_size = s.spread_size ∧
    (MarketMaker.decidePre s view).order_size = s.order_size ∧
    (MarketMaker.decidePre s view).skew_factor = s.skew_factor ∧
    (MarketMaker.decidePre s view).target_inventory_fraction = s.target_inventory_fraction ∧
    (MarketMaker.decidePre s view).risk_lower_bound = s.risk_lower_bound ∧
    (MarketMaker.decidePre s view).risk_upper_bound = s.risk_upper_bound ∧
    (MarketMaker.decidePre s view).stabilization_tolerance = s.stabilization_tolerance ∧
    (MarketMaker.decidePre s view).intent_id_counter = s.intent_id_counter ∧
    (MarketMaker.decidePre s view).order_filled_this_tick = s.order_filled_this_tick ∧
    (MarketMaker.decidePre s view).last_mid_price = s.last_mid_price ∧
    (MarketMaker.decidePre s view).wait_time = s.wait_time ∧
    (MarketMaker.decidePre s view).last_quote_global_tick = s.last_quote_global_tick := by
  unfold MarketMaker.decidePre
  rcases h : s.last_inventory_ratio with _ | old <;> simp only [h] <;> (try split_ifs) <;>
    simp

/-- decide, on a well-formed view, is exactly the layer dispatch applied to
the bookkept state. -/
theorem decide_dispatch (s : MarketMaker) (view : AgentView) (md : MarketDataView)
    (eco : EconomyInsightView) (h1 : view.agent_id = s.agent_id)
    (h2 : view.market_data_view = some md) (h3 : view.economy_insight_view = some eco) :
    MarketMaker.decide s view =
      (if MarketMaker._determine_current_layer s = "SURVIVE" then
        some (MarketMaker._survive_layer (MarketMaker.decidePre s view) md eco)
       else if MarketMaker._determine_current_layer s = "STABILIZE" then
        some (MarketMaker._stabilize_layer (MarketMaker.decidePre s view) md eco)
       else some (MarketMaker._provide_layer (MarketMaker.decidePre s view) md eco)) := by
  unfold MarketMaker.decide
  rw [h2, h3, if_neg (by simp [h1])]
  simp only [determine_layer_ticks]

end MAS

namespace MAS

/-- The panic sell intent: one SELL limit at the (floored) panic price for
min(shares, 3x order size), consuming one intent id. -/
theorem panic_sell_eq (s : MarketMaker) (md : MarketDataView) (eco : EconomyInsightView)
    (hsh : 0 < s.account_view.shares) :
    MarketMaker._create_panic_sell_intent s md eco =
      ({ (MarketMaker._estimate_price s md eco).1 with
          last_mid_price := some (MarketMaker._estimate_price s md eco).2,
          intent_id_counter := s.intent_id_counter + 1 },
       some (AgentIntent.placeOrder s.intent_id_counter Side.SELL OrderType.LIMIT
         (min s.account_view.shares (s.order_size * 3))
         (some (max (1 / 100)
           ((MarketMaker._estimate_price s md eco).2 - 5 * (s.spread_size : ℚ)))))) := by
  unfold MarketMaker._create_panic_sell_intent
  rw [if_neg (by omega)]
  conv_lhs => rw [estimate_price_eq]
  conv_rhs => rw [estimate_price_eq]
  simp [MarketMaker.next_intent_id]

/-- The panic buy intent: one BUY limit at mid + 5x spread for the affordable
quantity capped at 3x order size, consuming one intent id. -/
theorem panic_buy_eq (s : MarketMaker) (md : MarketDataView) (eco : EconomyInsightView)
    (hc : 0 < s.account_view.cash)
    (hq : 0 < min (pyInt (s.account_view.cash /
        (((MarketMaker._estimate_price s md eco).2 + 5 * (s.spread_size : ℚ)) *
          (1 + s.constants.fee_rate)))) (s.order_size * 3)) :
    MarketMaker._create_panic_buy_intent s md eco =
      ({ (MarketMaker._estimate_price s md eco).1 with
          last_mid_price := some (MarketMaker._estimate_price s md eco).2,
          intent_id_counter := s.intent_id_counter + 1 },
       some (AgentIntent.placeOrder s.intent_id_counter Side.BUY OrderType.LIMIT
         (min (pyInt (s.account_view.cash /
            (((MarketMaker._estimate_price s md eco).2 + 5 * (s.spread_size : ℚ)) *
              (1 + s.constants.fee_rate)))) (s.order_size * 3))
         (some ((MarketMaker._estimate_price s md eco).2 + 5 * (s.spread_size : ℚ))))) := by
  have hq' : ¬ (min (pyInt (s.account_view.cash /
      (((MarketMaker._estimate_price s md eco).2 + 5 * (s.spread_size : ℚ)) *
        (1 + s.constants.fee_rate)))) (s.order_size * 3) ≤ 0) := not_le.mpr hq
  unfold MarketMaker._create_panic_buy_intent
  rw [if_neg (by linarith)]
  conv_lhs => rw [estimate_price_eq]
  conv_rhs => rw [estimate_price_eq]
  simp only [MarketMaker.next_intent_id]
  rw [if_neg hq']

/-- SURVIVE with too many shares: cancel every WORKING order, then one panic
sell. -/
theorem survive_layer_sell_eq (s : MarketMaker) (md : MarketDataView) (eco : EconomyInsightView)
    (hr : MarketMaker._calculate_inventory_ratio s < s.risk_lower_bound)
    (hsh : 0 < s.account_view.shares) :
    (MarketMaker._survive_layer s md eco).2 =
      cancelIntentsFrom s.intent_id_counter
        (workingIds s.active_bids ++ workingIds s.active_asks) ++
      [AgentIntent.placeOrder
        (s.intent_id_counter + (workingIds s.active_bids ++ workingIds s.active_asks).length)
        Side.SELL OrderType.LIMIT (min s.account_view.shares (s.order_size * 3))
        (some (max (1 / 100)
          ((MarketMaker._estimate_price s md eco).2 - 5 * (s.spread_size : ℚ))))] := by
  unfold MarketMaker._survive_layer
  simp only [cancel_all_orders_eq]
  split_ifs with h1 h2
  · rw [panic_sell_eq { s with intent_id_counter := s.intent_id_counter +
        (workingIds s.active_bids ++ workingIds s.active_asks).length } md eco hsh,
      estimate_price_congr s { s with intent_id_counter := s.intent_id_counter +
        (workingIds s.active_bids ++ workingIds s.active_asks).length } md eco rfl]
    simp
  · exact absurd hr h1
  · exact absurd hr h1

/-- SURVIVE with too much cash: cancel every WORKING order, then one panic
buy. -/
theorem survive_layer_buy_eq (s : MarketMaker) (md : MarketDataView) (eco : EconomyInsightView)
    (hr1 : ¬ (MarketMaker._calculate_inventory_ratio s < s.risk_lower_bound))
    (hr2 : MarketMaker._calculate_inventory_ratio s > s.risk_upper_bound)
    (hc : 0 < s.account_view.cash)
    (hq : 0 < min (pyInt (s.account_view.cash /
        (((MarketMaker._estimate_price s md eco).2 + 5 * (s.spread_size : ℚ)) *
          (1 + s.constants.fee_rate)))) (s.order_size * 3)) :
    (MarketMaker._survive_layer s md eco).2 =
      cancelIntentsFrom s.intent_id_counter
        (workingIds s.active_bids ++ workingIds s.active_asks) ++
      [AgentIntent.placeOrder
        (s.intent_id_counter + (workingIds s.active_bids ++ workingIds s.active_asks).length)
        Side.BUY OrderType.LIMIT
        (min (pyInt (s.account_view.cash /
          (((MarketMaker._estimate_price s md eco).2 + 5 * (s.spread_size : ℚ)) *
            (1 + s.constants.fee_rate)))) (s.order_size * 3))
        (some ((MarketMaker._estimate_price s md eco).2 + 5 * (s.spread_size : ℚ)))] := by
  have hcong := estimate_price_congr s { s with intent_id_counter := s.intent_id_counter +
      (workingIds s.active_bids ++ workingIds s.active_asks).length } md eco rfl
  have hq' := hq
  rw [← hcong] at hq'
  unfold MarketMaker._survive_layer
  simp only [cancel_all_orders_eq]
  split_ifs with h1 h2
  · exact absurd h1 hr1
  · rw [panic_buy_eq { s with intent_id_counter := s.intent_id_counter +
        (workingIds s.active_bids ++ workingIds s.active_asks).length } md eco hc hq',
      hcong]
    simp
  · exact absurd hr2 h2

/-- C1 (amended): when the inventory ratio leaves
[risk_lower_bound, risk_upper_bound] (and the panic order is placeable:
positive capacity), decide runs the SURVIVE branch only: it emits one
CancelOrder per WORKING order in active_bids then active_asks, followed by
exactly one one-sided limit order - a sell at max(0.01, mid - 5*spread) for
min(shares, 3*order_size) when the ratio is below the lower bound, else a
buy at mid + 5*spread for the affordable quantity capped at 3*order_size. -/
theorem mm_survive_priority_amended (s : MarketMaker) (view : AgentView) (md : MarketDataView)
    (eco : EconomyInsightView)
    (h1 : view.agent_id = s.agent_id) (h2 : view.market_data_view = some md)
    (h3 : view.economy_insight_view = some eco)
    (htrig : MarketMaker._calculate_inventory_ratio s < s.risk_lower_bound ∨
      MarketMaker._calculate_inventory_ratio s > s.risk_upper_bound)
    (hsell : MarketMaker._calculate_inventory_ratio s < s.risk_lower_bound →
      0 < s.account_view.shares)
    (hbuy : ¬ MarketMaker._calculate_inventory_ratio s < s.risk_lower_bound →
      0 < s.account_view.cash ∧
      0 < min (pyInt (s.account_view.cash /
        (((MarketMaker._estimate_price s md eco).2 + 5 * (s.spread_size : ℚ)) *
          (1 + s.constants.fee_rate)))) (s.order_size * 3)) :
    ∃ t : MarketMaker, MarketMaker.decide s view = some (t,
      cancelIntentsFrom s.intent_id_counter
        (workingIds s.active_bids ++ workingIds s.active_asks) ++
      [if MarketMaker._calculate_inventory_ratio s < s.risk_lower_bound then
        AgentIntent.placeOrder
          (s.intent_id_counter +
            (workingIds s.active_bids ++ workingIds s.active_asks).length)
          Side.SELL OrderType.LIMIT (min s.account_view.shares (s.order_size * 3))
          (some (max (1 / 100)
            ((MarketMaker._estimate_price s md eco).2 - 5 * (s.spread_size : ℚ))))
       else
        AgentIntent.placeOrder
          (s.intent_id_counter +
            (workingIds s.active_bids ++ workingIds s.active_asks).length)
          Side.BUY OrderType.LIMIT
          (min (pyInt (s.account_view.cash /
            (((MarketMaker._estimate_price s md eco).2 + 5 * (s.spread_size : ℚ)) *
              (1 + s.constants.fee_rate)))) (s.order_size * 3))
          (some ((MarketMaker._estimate_price s md eco).2 + 5 * (s.spread_size : ℚ)))]) := by
  have hlayer : MarketMaker._determine_current_layer s = "SURVIVE" := by
    unfold MarketMaker._determine_current_layer MarketMaker._should_survive
    rcases htrig with h | h
    · simp [h]
    · by_cases h' : MarketMaker._calculate_inventory_ratio s < s.risk_lower_bound <;> simp [h, h']
  rw [decide_dispatch s view md eco h1 h2 h3, if_pos hlayer]
  obtain ⟨hb, ha, hac, hco, hlk, hsp, hos, hsk, htg, hlo, hup, hto, hcn, hof, hlm, hwt, hlq⟩ :=
    decidePre_frame s view
  have hratio : MarketMaker._calculate_inventory_ratio (MarketMaker.decidePre s view) =
      MarketMaker._calculate_inventory_ratio s := ratio_congr _ _ hlk hac htg
  have hest : (MarketMaker._estimate_price (MarketMaker.decidePre s view) md eco).2 =
      (MarketMaker._estimate_price s md eco).2 := estimate_price_congr _ _ md eco hlk
  refine ⟨(MarketMaker._survive_layer (MarketMaker.decidePre s view) md eco).1, ?_⟩
  rw [Option.some_inj]
  refine Prod.ext rfl ?_
  simp only []
  by_cases hsl : MarketMaker._calculate_inventory_ratio s < s.risk_lower_bound
  · have hs1 := hsell hsl
    rw [survive_layer_sell_eq (MarketMaker.decidePre s view) md eco
      (by rw [hratio, hlo]; exact hsl) (by rw [hac]; exact hs1)]
    rw [hb, ha, hac, hos, hsp, hcn, hest, if_pos hsl]
  · have hbu : MarketMaker._calculate_inventory_ratio s > s.risk_upper_bound :=
      htrig.resolve_left hsl
    obtain ⟨hc1, hc2⟩ := hbuy hsl
    rw [survive_layer_buy_eq (MarketMaker.decidePre s view) md eco
      (by rw [hratio, hlo]; exact hsl) (by rw [hratio, hup]; exact hbu)
      (by rw [hac]; exact hc1)
      (by rw [hac, hest, hsp, hco, hos]; exact hc2)]
    rw [hb, ha, hac, hos, hsp, hco, hcn, hest, if_neg hsl]

end MAS

namespace MAS

/-- Witness for C1 at mmFloor: ratio 0 below the 0.2 bound, no cached
orders, one panic sell at the floored price, evaluated through decide. -/
theorem mm_survive_priority_amended_witness :
    ∃ t : MarketMaker, MarketMaker.decide mmFloor viewF = some (t,
      cancelIntentsFrom mmFloor.intent_id_counter
        (workingIds mmFloor.active_bids ++ workingIds mmFloor.active_asks) ++
      [if MarketMaker._calculate_inventory_ratio mmFloor < mmFloor.risk_lower_bound then
        AgentIntent.placeOrder
          (mmFloor.intent_id_counter +
            (workingIds mmFloor.active_bids ++ workingIds mmFloor.active_asks).length)
          Side.SELL OrderType.LIMIT
          (min mmFloor.account_view.shares (mmFloor.order_size * 3))
          (some (max (1 / 100)
            ((MarketMaker._estimate_price mmFloor md1 eco90110).2 -
              5 * (mmFloor.spread_size : ℚ))))
       else
        AgentIntent.placeOrder
          (mmFloor.intent_id_counter +
            (workingIds mmFloor.active_bids ++ workingIds mmFloor.active_asks).length)
          Side.BUY OrderType.LIMIT
          (min (pyInt (mmFloor.account_view.cash /
            (((MarketMaker._estimate_price mmFloor md1 eco90110).2 +
              5 * (mmFloor.spread_size : ℚ)) *
              (1 + mmFloor.constants.fee_rate)))) (mmFloor.order_size * 3))
          (some ((MarketMaker._estimate_price mmFloor md1 eco90110).2 +
            5 * (mmFloor.spread_size : ℚ)))]) :=
  mm_survive_priority_amended mmFloor viewF md1 eco90110 rfl rfl rfl
    (Or.inl (by norm_num [MarketMaker._calculate_inventory_ratio, mmFloor, mmBase]))
    (fun _ => by norm_num [mmFloor, mmBase])
    (fun h => absurd
      (by norm_num [MarketMaker._calculate_inventory_ratio, mmFloor, mmBase]) h)

end MAS

namespace MAS

/-- The selective STABILIZE cancel in explicit form. -/
theorem selective_cancel_eq (s : MarketMaker) (r tb ta : ℚ) :
    MarketMaker._selective_stabilize_cancel s r tb ta =
      ({ s with intent_id_counter := s.intent_id_counter +
          (if r < s.target_inventory_fraction then (nonEquivIds s.active_bids tb Side.BUY).length
           else (nonEquivIds s.active_asks ta Side.SELL).length) },
       cancelIntentsFrom s.intent_id_counter
         (if r < s.target_inventory_fraction then nonEquivIds s.active_bids tb Side.BUY
          else nonEquivIds s.active_asks ta Side.SELL)) := by
  unfold MarketMaker._selective_stabilize_cancel
  split_ifs with h <;> simp [cancelNonEquivalent_eq, h]

/-- The PROVIDE selective cancel in explicit form. -/
theorem cancel_non_equivalent_orders_eq (s : MarketMaker) (bid ask : ℚ) :
    MarketMaker._cancel_non_equivalent_orders s bid ask =
      ({ s with intent_id_counter := s.intent_id_counter +
          ((nonEquivIds s.active_bids bid Side.BUY).length +
           (nonEquivIds s.active_asks ask Side.SELL).length) },
       cancelIntentsFrom s.intent_id_counter (nonEquivIds s.active_bids bid Side.BUY) ++
       cancelIntentsFrom
         (s.intent_id_counter + (nonEquivIds s.active_bids bid Side.BUY).length)
         (nonEquivIds s.active_asks ask Side.SELL)) := by
  unfold MarketMaker._cancel_non_equivalent_orders
  simp only [cancelNonEquivalent_eq]
  refine Prod.ext ?_ rfl
  simp only []
  congr 1
  omega

/-- Field projections through the price estimation step. -/
theorem est_bids (s : MarketMaker) (md : MarketDataView) (eco : EconomyInsightView) :
    (MarketMaker._estimate_price s md eco).1.active_bids = s.active_bids := by
  rw [estimate_price_eq]

/-- Field projections through the price estimation step. -/
theorem est_asks (s : MarketMaker) (md : MarketDataView) (eco : EconomyInsightView) :
    (MarketMaker._estimate_price s md eco).1.active_asks = s.active_asks := by
  rw [estimate_price_eq]

/-- Field projections through the price estimation step. -/
theorem est_fill (s : MarketMaker) (md : MarketDataView) (eco : EconomyInsightView) :
    (MarketMaker._estimate_price s md eco).1.order_filled_this_tick =
      s.order_filled_this_tick := by
  rw [estimate_price_eq]

/-- Field projections through the price estimation step. -/
theorem est_counter (s : MarketMaker) (md : MarketDataView) (eco : EconomyInsightView) :
    (MarketMaker._estimate_price s md eco).1.intent_id_counter = s.intent_id_counter := by
  rw [estimate_price_eq]

/-- Field projections through the PROVIDE selective cancel. -/
theorem cneo_bids (s : MarketMaker) (bid ask : ℚ) :
    (MarketMaker._cancel_non_equivalent_orders s bid ask).1.active_bids = s.active_bids := by
  rw [cancel_non_equivalent_orders_eq]

/-- Field projections through the PROVIDE selective cancel. -/
theorem cneo_asks (s : MarketMaker) (bid ask : ℚ) :
    (MarketMaker._cancel_non_equivalent_orders s bid ask).1.active_asks = s.active_asks := by
  rw [cancel_non_equivalent_orders_eq]

/-- Field projections through the PROVIDE selective cancel. -/
theorem cneo_fill (s : MarketMaker) (bid ask : ℚ) :
    (MarketMaker._cancel_non_equivalent_orders s bid ask).1.order_filled_this_tick =
      s.order_filled_this_tick := by
  rw [cancel_non_equivalent_orders_eq]

/-- Field projections through the STABILIZE selective cancel. -/
theorem ssc_bids (s : MarketMaker) (r tb ta : ℚ) :
    (MarketMaker._selective_stabilize_cancel s r tb ta).1.active_bids = s.active_bids := by
  rw [selective_cancel_eq]

/-- Field projections through the STABILIZE selective cancel. -/
theorem ssc_asks (s : MarketMaker) (r tb ta : ℚ) :
    (MarketMaker._selective_stabilize_cancel s r tb ta).1.active_asks = s.active_asks := by
  rw [selective_cancel_eq]

/-- Field projections through the STABILIZE selective cancel. -/
theorem ssc_fill (s : MarketMaker) (r tb ta : ℚ) :
    (MarketMaker._selective_stabilize_cancel s r tb ta).1.order_filled_this_tick =
      s.order_filled_this_tick := by
  rw [selective_cancel_eq]

/-- Field projections through cancel-all. -/
theorem cao_bids (s : MarketMaker) :
    (MarketMaker._cancel_all_orders s).1.active_bids = s.active_bids := by
  rw [cancel_all_orders_eq]

/-- Field projections through cancel-all. -/
theorem cao_asks (s : MarketMaker) :
    (MarketMaker._cancel_all_orders s).1.active_asks = s.active_asks := by
  rw [cancel_all_orders_eq]

/-- Field projections through cancel-all. -/
theorem cao_fill (s : MarketMaker) :
    (MarketMaker._cancel_all_orders s).1.order_filled_this_tick =
      s.order_filled_this_tick := by
  rw [cancel_all_orders_eq]

/-- Field projections through the panic sell constructor. -/
theorem psell_bids (s : MarketMaker) (md : MarketDataView) (eco : EconomyInsightView) :
    (MarketMaker._create_panic_sell_intent s md eco).1.active_bids = s.active_bids := by
  unfold MarketMaker._create_panic_sell_intent
  dsimp only
  split_ifs <;> simp only [MarketMaker.next_intent_id, est_bids]

/-- Field projections through the panic sell constructor. -/
theorem psell_asks (s : MarketMaker) (md : MarketDataView) (eco : EconomyInsightView) :
    (MarketMaker._create_panic_sell_intent s md eco).1.active_asks = s.active_asks := by
  unfold MarketMaker._create_panic_sell_intent
  dsimp only
  split_ifs <;> simp only [MarketMaker.next_intent_id, est_asks]

/-- Field projections through the panic sell constructor. -/
theorem psell_fill (s : MarketMaker) (md : MarketDataView) (eco : EconomyInsightView) :
    (MarketMaker._create_panic_sell_intent s md eco).1.order_filled_this_tick =
      s.order_filled_this_tick := by
  unfold MarketMaker._create_panic_sell_intent
  dsimp only
  split_ifs <;> simp only [MarketMaker.next_intent_id, est_fill]

/-- Field projections through the panic buy constructor. -/
theorem pbuy_bids (s : MarketMaker) (md : MarketDataView) (eco : EconomyInsightView) :
    (MarketMaker._create_panic_buy_intent s md eco).1.active_bids = s.active_bids := by
  unfold MarketMaker._create_panic_buy_intent
  dsimp only
  split_ifs <;> simp only [MarketMaker.next_intent_id, est_bids]

/-- Field projections through the panic buy constructor. -/
theorem pbuy_asks (s : MarketMaker) (md : MarketDataView) (eco : EconomyInsightView) :
    (MarketMaker._create_panic_buy_intent s md eco).1.active_asks = s.active_asks := by
  unfold MarketMaker._create_panic_buy_intent
  dsimp only
  split_ifs <;> simp only [MarketMaker.next_intent_id, est_asks]

/-- Field projections through the panic buy constructor. -/
theorem pbuy_fill (s : MarketMaker) (md : MarketDataView) (eco : EconomyInsightView) :
    (MarketMaker._create_panic_buy_intent s md eco).1.order_filled_this_tick =
      s.order_filled_this_tick := by
  unfold MarketMaker._create_panic_buy_intent
  dsimp only
  split_ifs <;> simp only [MarketMaker.next_intent_id, est_fill]

/-- The PROVIDE layer leaves the caches and fill flag untouched. -/
theorem provide_frame (s : MarketMaker) (md : MarketDataView) (eco : EconomyInsightView) :
    (MarketMaker._provide_layer s md eco).1.active_bids = s.active_bids ∧
    (MarketMaker._provide_layer s md eco).1.active_asks = s.active_asks ∧
    (MarketMaker._provide_layer s md eco).1.order_filled_this_tick =
      s.order_filled_this_tick := by
  unfold MarketMaker._provide_layer
  dsimp only
  split_ifs <;>
    refine ⟨?_, ?_, ?_⟩ <;>
    simp only [MarketMaker.next_intent_id, est_bids, est_asks, est_fill, cneo_bids,
      cneo_asks, cneo_fill]

/-- The STABILIZE layer leaves the caches and fill flag untouched. -/
theorem stabilize_frame (s : MarketMaker) (md : MarketDataView) (eco : EconomyInsightView) :
    (MarketMaker._stabilize_layer s md eco).1.active_bids = s.active_bids ∧
    (MarketMaker._stabilize_layer s md eco).1.active_asks = s.active_asks ∧
    (MarketMaker._stabilize_layer s md eco).1.order_filled_this_tick =
      s.order_filled_this_tick := by
  unfold MarketMaker._stabilize_layer
  dsimp only
  split_ifs <;>
    refine ⟨?_, ?_, ?_⟩ <;>
    simp only [MarketMaker.next_intent_id, est_bids, est_asks, est_fill, ssc_bids,
      ssc_asks, ssc_fill]

/-- The SURVIVE layer leaves the caches and fill flag untouched. -/
theorem survive_frame (s : MarketMaker) (md : MarketDataView) (eco : EconomyInsightView) :
    (MarketMaker._survive_layer s md eco).1.active_bids = s.active_bids ∧
    (MarketMaker._survive_layer s md eco).1.active_asks = s.active_asks ∧
    (MarketMaker._survive_layer s md eco).1.order_filled_this_tick =
      s.order_filled_this_tick := by
  unfold MarketMaker._survive_layer
  dsimp only
  split_ifs <;>
    refine ⟨?_, ?_, ?_⟩ <;>
    simp only [cao_bids, cao_asks, cao_fill, psell_bids, psell_asks, psell_fill,
      pbuy_bids, pbuy_asks, pbuy_fill]

end MAS

namespace MAS

/-- Evaluation: decide on the empty-account state returns no intents and only
updates the cached price and inventory-ratio bookkeeping. -/
theorem decide_mmEmpty : MarketMaker.decide mmEmpty viewW = some (mmDecided, []) := by
  norm_num [MarketMaker.decide, MarketMaker.decidePre, MarketMaker._determine_current_layer,
    MarketMaker._should_survive, MarketMaker._should_stabilize,
    MarketMaker._calculate_inventory_ratio, MarketMaker._provide_layer,
    MarketMaker._estimate_price, MarketMaker._calculate_provide_prices,
    MarketMaker._should_refresh_quotes, MarketMaker._cancel_non_equivalent_orders,
    MarketMaker.cancelNonEquivalent, MarketMaker._has_equivalent_working_order,
    MarketMaker._validate_bid_quantity, MarketMaker._validate_ask_quantity,
    mmEmpty, mmDecided, mmBase, viewW, md95, eco90110, constantsW]
  simp

/-- C10: when decide returns an empty intent list, the engine's agent loop
dispatches nothing to the market and does not call update - the agent is left
exactly in its post-decide state; and a MarketMaker decide never touches the
feedback-driven state (order caches and the fill flag), so that state is
unchanged on such ticks. -/
theorem engine_empty_intents_frame :
    (∀ (σ : Type) (impl : AgentImpl σ) (env : MarketEnv) (aid : ℕ) (st st1 : σ)
      (view : AgentView),
      impl.decideFn st view = some (st1, []) →
      _agent_loop_step impl env aid st view = some (st1, [])) ∧
    (∀ (s : MarketMaker) (view : AgentView) (t : MarketMaker) (intents : List AgentIntent),
      MarketMaker.decide s view = some (t, intents) →
      t.active_bids = s.active_bids ∧ t.active_asks = s.active_asks ∧
      t.order_filled_this_tick = s.order_filled_this_tick) := by
  constructor
  · intro σ impl env aid st st1 view h
    unfold _agent_loop_step
    rw [h]
    simp
  · intro s view t intents h
    obtain ⟨hfb, hfa, -, -, -, -, -, -, -, -, -, -, -, hff, -, -, -⟩ := decidePre_frame s view
    unfold MarketMaker.decide at h
    by_cases hid : view.agent_id ≠ s.agent_id
    · rw [if_pos hid] at h
      exact absurd h (by simp)
    · rw [if_neg hid] at h
      rcases hmd : view.market_data_view with _ | md <;>
        rcases heco : view.economy_insight_view with _ | eco <;>
        rw [hmd, heco] at h
      · exact absurd h (by simp)
      · exact absurd h (by simp)
      · exact absurd h (by simp)
      · dsimp only at h
        split_ifs at h
        · obtain ⟨hX1, -⟩ := Prod.ext_iff.mp (Option.some.inj h)
          dsimp only at hX1
          rw [← hX1]
          refine ⟨?_, ?_, ?_⟩
          · rw [(survive_frame _ md eco).1, hfb]
          · rw [(survive_frame _ md eco).2.1, hfa]
          · rw [(survive_frame _ md eco).2.2, hff]
        · obtain ⟨hX1, -⟩ := Prod.ext_iff.mp (Option.some.inj h)
          dsimp only at hX1
          rw [← hX1]
          refine ⟨?_, ?_, ?_⟩
          · rw [(stabilize_frame _ md eco).1, hfb]
          · rw [(stabilize_frame _ md eco).2.1, hfa]
          · rw [(stabilize_frame _ md eco).2.2, hff]
        · obtain ⟨hX1, -⟩ := Prod.ext_iff.mp (Option.some.inj h)
          dsimp only at hX1
          rw [← hX1]
          refine ⟨?_, ?_, ?_⟩
          · rw [(provide_frame _ md eco).1, hfb]
          · rw [(provide_frame _ md eco).2.1, hfa]
          · rw [(provide_frame _ md eco).2.2, hff]

/-- Witness for C10: the empty-account MarketMaker run through one engine
iteration. -/
theorem engine_empty_intents_frame_witness :
    _agent_loop_step marketMakerImpl envW 1 mmEmpty viewW = some (mmDecided, []) ∧
    (mmDecided.active_bids = mmEmpty.active_bids ∧
     mmDecided.active_asks = mmEmpty.active_asks ∧
     mmDecided.order_filled_this_tick = mmEmpty.order_filled_this_tick) :=
  ⟨engine_empty_intents_frame.1 MarketMaker marketMakerImpl envW 1 mmEmpty mmDecided viewW
      decide_mmEmpty,
   engine_empty_intents_frame.2 mmEmpty viewW mmDecided [] decide_mmEmpty⟩

end MAS

namespace MAS

/-- Field projections through the price estimation step. -/
theorem est_target (s : MarketMaker) (md : MarketDataView) (eco : EconomyInsightView) :
    (MarketMaker._estimate_price s md eco).1.target_inventory_fraction =
      s.target_inventory_fraction := by
  rw [estimate_price_eq]

/-- Field projections through the price estimation step. -/
theorem est_spread (s : MarketMaker) (md : MarketDataView) (eco : EconomyInsightView) :
    (MarketMaker._estimate_price s md eco).1.spread_size = s.spread_size := by
  rw [estimate_price_eq]

/-- Field projections through the price estimation step. -/
theorem est_constants (s : MarketMaker) (md : MarketDataView) (eco : EconomyInsightView) :
    (MarketMaker._estimate_price s md eco).1.constants = s.constants := by
  rw [estimate_price_eq]

/-- The STABILIZE target prices only depend on the spread and fee parameters
of the state. -/
theorem stabilizeTargets_congr (u t : MarketMaker) (mid skew : ℚ)
    (hsp : t.spread_size = u.spread_size) (hc : t.constants = u.constants) :
    MarketMaker.stabilizeTargets t mid skew = MarketMaker.stabilizeTargets u mid skew := by
  unfold MarketMaker.stabilizeTargets MarketMaker._calculate_skewed_prices
  rw [hsp, hc]

/-- The skew only depends on the target fraction and skew factor. -/
theorem skew_congr (u t : MarketMaker) (r : ℚ)
    (h1 : t.target_inventory_fraction = u.target_inventory_fraction)
    (h2 : t.skew_factor = u.skew_factor) :
    MarketMaker._calculate_skew t r = MarketMaker._calculate_skew u r := by
  unfold MarketMaker._calculate_skew
  rw [h1, h2]

/-- Any CancelOrder the STABILIZE layer emits comes from the selective cancel
run on the risk side. -/
theorem stabilize_cancel_mem (u : MarketMaker) (md : MarketDataView) (eco : EconomyInsightView)
    (iid oid : ℕ)
    (hmem : AgentIntent.cancelOrder iid oid ∈ (MarketMaker._stabilize_layer u md eco).2) :
    (MarketMaker._calculate_inventory_ratio u < u.target_inventory_fraction ∧
      oid ∈ nonEquivIds u.active_bids
        (MarketMaker.stabilizeTargets u (MarketMaker._estimate_price u md eco).2
          (MarketMaker._calculate_skew u (MarketMaker._calculate_inventory_ratio u))).1
        Side.BUY) ∨
    (¬ MarketMaker._calculate_inventory_ratio u < u.target_inventory_fraction ∧
      oid ∈ nonEquivIds u.active_asks
        (MarketMaker.stabilizeTargets u (MarketMaker._estimate_price u md eco).2
          (MarketMaker._calculate_skew u (MarketMaker._calculate_inventory_ratio u))).2
        Side.SELL) := by
  unfold MarketMaker._stabilize_layer at hmem
  dsimp only at hmem
  rw [selective_cancel_eq] at hmem
  rw [stabilizeTargets_congr u _ _ _ (est_spread u md eco) (est_constants u md eco)] at hmem
  rw [estimate_price_congr u _ md eco rfl] at hmem
  simp only [est_bids, est_asks, est_target, List.mem_append] at hmem
  rcases hmem with (hc | hb) | ha
  · obtain ⟨i, oid', hx, hmem'⟩ := cancelIntentsFrom_mem _ _ _ hc
    obtain ⟨rfl, rfl⟩ : iid = i ∧ oid = oid' := by
      cases hx
      exact ⟨rfl, rfl⟩
    by_cases hr : MarketMaker._calculate_inventory_ratio u < u.target_inventory_fraction
    · left
      refine ⟨hr, ?_⟩
      rw [if_pos hr] at hmem'
      exact hmem'
    · right
      refine ⟨hr, ?_⟩
      rw [if_neg hr] at hmem'
      exact hmem'
  · exfalso
    revert hb
    split_ifs <;> simp
  · exfalso
    revert ha
    split_ifs <;> simp

/-- Unpacking membership in a non-equivalent-order id list. -/
theorem nonEquivIds_mem (orders : List (ℕ × OrderView)) (target : ℚ) (side : Side) (oid : ℕ)
    (h : oid ∈ nonEquivIds orders target side) :
    ∃ ov, (oid, ov) ∈ orders ∧ ov.lifecycle = OrderLifecycle.WORKING ∧
      MarketMaker._is_quote_equivalent ov target side = false := by
  unfold nonEquivIds at h
  simp only [List.mem_map, List.mem_filter, decide_eq_true_eq] at h
  obtain ⟨⟨o, ov⟩, ⟨hmem, hw, he⟩, rfl⟩ := h
  exact ⟨ov, hmem, hw, he⟩

/-- C2: in the STABILIZE layer, with too many shares (ratio below target) no
CancelOrder targets the supportive ask side and every cancel hits a WORKING,
non-quote-equivalent cached bid; with too much cash (ratio above target) the
mirror statement holds, under disjoint cache keys. -/
theorem mm_stabilize_supportive_side (s : MarketMaker) (view : AgentView)
    (md : MarketDataView) (eco : EconomyInsightView)
    (h1 : view.agent_id = s.agent_id) (h2 : view.market_data_view = some md)
    (h3 : view.economy_insight_view = some eco)
    (hlayer : MarketMaker._determine_current_layer s = "STABILIZE")
    (hdisj : ∀ oid, oid ∈ s.active_bids.map Prod.fst → oid ∉ s.active_asks.map Prod.fst)
    (res : MarketMaker × List AgentIntent) (hres : MarketMaker.decide s view = some res) :
    (MarketMaker._calculate_inventory_ratio s < s.target_inventory_fraction →
      ∀ iid oid, AgentIntent.cancelOrder iid oid ∈ res.2 →
        oid ∉ s.active_asks.map Prod.fst ∧
        ∃ ov, (oid, ov) ∈ s.active_bids ∧ ov.lifecycle = OrderLifecycle.WORKING ∧
          MarketMaker._is_quote_equivalent ov
            (MarketMaker.stabilizeTargets s (MarketMaker._estimate_price s md eco).2
              (MarketMaker._calculate_skew s
                (MarketMaker._calculate_inventory_ratio s))).1 Side.BUY = false) ∧
    (MarketMaker._calculate_inventory_ratio s > s.target_inventory_fraction →
      ∀ iid oid, AgentIntent.cancelOrder iid oid ∈ res.2 →
        oid ∉ s.active_bids.map Prod.fst ∧
        ∃ ov, (oid, ov) ∈ s.active_asks ∧ ov.lifecycle = OrderLifecycle.WORKING ∧
          MarketMaker._is_quote_equivalent ov
            (MarketMaker.stabilizeTargets s (MarketMaker._estimate_price s md eco).2
              (MarketMaker._calculate_skew s
                (MarketMaker._calculate_inventory_ratio s))).2 Side.SELL = false) := by
  rw [decide_dispatch s view md eco h1 h2 h3, hlayer] at hres
  simp only [reduceIte] at hres
  have hres2 := congrArg (fun z => Prod.snd z) (Option.some.inj hres)
  dsimp only at hres2
  obtain ⟨hfb, hfa, hfac, hfco, hflk, hfsp, hfos, hfsk, hftg, -, -, -, -, -, -, -, -⟩ :=
    decidePre_frame s view
  have hratio : MarketMaker._calculate_inventory_ratio (MarketMaker.decidePre s view) =
      MarketMaker._calculate_inventory_ratio s := ratio_congr _ _ hflk hfac hftg
  have hest : (MarketMaker._estimate_price (MarketMaker.decidePre s view) md eco).2 =
      (MarketMaker._estimate_price s md eco).2 := estimate_price_congr _ _ md eco hflk
  have hskew : ∀ r, MarketMaker._calculate_skew (MarketMaker.decidePre s view) r =
      MarketMaker._calculate_skew s r := fun r => skew_congr _ _ r hftg hfsk
  have htg : ∀ mid skew, MarketMaker.stabilizeTargets (MarketMaker.decidePre s view) mid skew =
      MarketMaker.stabilizeTargets s mid skew := fun mid skew =>
    stabilizeTargets_congr _ _ mid skew hfsp hfco
  constructor
  · intro hr iid oid hmem
    rw [← hres2] at hmem
    have hcases := stabilize_cancel_mem _ md eco iid oid hmem
    rw [hratio, hftg, hfb, hfa, hest, hskew, htg] at hcases
    rcases hcases with ⟨-, hin⟩ | ⟨hnot, -⟩
    · obtain ⟨ov, hov, hw, he⟩ := nonEquivIds_mem _ _ _ _ hin
      refine ⟨?_, ov, hov, hw, he⟩
      exact hdisj oid (List.mem_map_of_mem Prod.fst hov)
    · exact absurd hr hnot
  · intro hr iid oid hmem
    rw [← hres2] at hmem
    have hcases := stabilize_cancel_mem _ md eco iid oid hmem
    rw [hratio, hftg, hfb, hfa, hest, hskew, htg] at hcases
    rcases hcases with ⟨hlt, -⟩ | ⟨-, hin⟩
    · exact absurd hr (not_lt.mpr (le_of_lt hlt)).elim
    · obtain ⟨ov, hov, hw, he⟩ := nonEquivIds_mem _ _ _ _ hin
      refine ⟨?_, ov, hov, hw, he⟩
      intro hbid
      exact hdisj oid hbid (List.mem_map_of_mem Prod.fst hov)

end MAS

namespace MAS

/-- Evaluation: mmStab sits in the STABILIZE layer. -/
theorem layer_mmStab : MarketMaker._determine_current_layer mmStab = "STABILIZE" := by
  norm_num [MarketMaker._determine_current_layer, MarketMaker._should_survive,
    MarketMaker._should_stabilize, MarketMaker._calculate_inventory_ratio,
    mmStab, mmBase, abs]

/-- Evaluation: the decide bookkeeping prefix on mmStab. -/
theorem pre_mmStab : MarketMaker.decidePre mmStab viewW = mmStabPre := by
  norm_num [MarketMaker.decidePre, MarketMaker._determine_current_layer,
    MarketMaker._should_survive, MarketMaker._should_stabilize,
    MarketMaker._calculate_inventory_ratio, mmStab, mmStabPre, mmBase, viewW, constantsW, abs]
  decide

/-- Evaluation: price estimation on mmStabPre. -/
theorem est_mmStabPre :
    MarketMaker._estimate_price mmStabPre md95 eco90110 = (mmStabEst, 95) := by
  norm_num [MarketMaker._estimate_price, mmStabPre, mmStabEst, mmStab, mmBase, md95]

/-- Evaluation: mmStabPre's inventory ratio. -/
theorem ratio_mmStabPre : MarketMaker._calculate_inventory_ratio mmStabPre = 140 / 197 := by
  norm_num [MarketMaker._calculate_inventory_ratio, mmStabPre, mmStab, mmBase]

/-- Evaluation: mmStabPre's price skew. -/
theorem skew_mmStabPre : MarketMaker._calculate_skew mmStabPre (140 / 197) = -(2075 / 197) := by
  norm_num [MarketMaker._calculate_skew, mmStabPre, mmStab, mmBase]

/-- Evaluation: the STABILIZE target prices on mmStabEst. -/
theorem tg_mmStabEst : MarketMaker.stabilizeTargets mmStabEst 95 (-(2075 / 197)) = (93, 95) := by
  norm_num [MarketMaker.stabilizeTargets, MarketMaker._calculate_skewed_prices,
    mmStabEst, mmStabPre, mmStab, mmBase, constantsW, abs]

/-- Evaluation: the skewed quantities on mmStabEst. -/
theorem q_mmStabEst : MarketMaker._calculate_skewed_quantities mmStabEst (140 / 197) = (24, 2) := by
  norm_num [MarketMaker._calculate_skewed_quantities, MarketMaker._validate_bid_quantity,
    MarketMaker._validate_ask_quantity, pyInt, mmStabEst, mmStabPre, mmStab, mmBase,
    constantsW, abs]

/-- Evaluation: the selective cancel on mmStabEst cancels the far ask. -/
theorem ssc_mmStabEst : MarketMaker._selective_stabilize_cancel mmStabEst (140 / 197) 93 95 =
    (mmStabCan, [AgentIntent.cancelOrder 0 4]) := by
  norm_num [selective_cancel_eq, nonEquivIds, cancelIntentsFrom,
    MarketMaker._is_quote_equivalent, mmStabCan, mmStabEst, mmStabPre, mmStab, mmBase,
    ovWork, ovAsk200, List.range', abs]

/-- Evaluation: no equivalent working bid at 93. -/
theorem heb_mmStabCan : MarketMaker._has_equivalent_working_order mmStabCan Side.BUY 93 = false := by
  norm_num [MarketMaker._has_equivalent_working_order, MarketMaker._is_quote_equivalent,
    mmStabCan, mmStabEst, mmStabPre, mmStab, mmBase, ovWork, ovAsk200]

/-- Evaluation: no equivalent working ask at 95. -/
theorem hea_mmStabCan : MarketMaker._has_equivalent_working_order mmStabCan Side.SELL 95 = false := by
  norm_num [MarketMaker._has_equivalent_working_order, MarketMaker._is_quote_equivalent,
    mmStabCan, mmStabEst, mmStabPre, mmStab, mmBase, ovWork, ovAsk200, abs]
  intro a b hmem
  simp only [if_neg (by decide : ¬ Side.SELL = Side.BUY), List.mem_singleton] at hmem
  obtain ⟨rfl, rfl⟩ := Prod.mk.injEq .. ▸ hmem
  norm_num [ovAsk200]

/-- Evaluation: the full STABILIZE layer output on mmStabPre. -/
theorem stab_layer_eval : MarketMaker._stabilize_layer mmStabPre md95 eco90110 =
    (mmStabRes,
     [AgentIntent.cancelOrder 0 4,
      AgentIntent.placeOrder 1 Side.BUY OrderType.LIMIT 24 (some 93),
      AgentIntent.placeOrder 2 Side.SELL OrderType.LIMIT 2 (some 95)]) := by
  unfold MarketMaker._stabilize_layer
  rw [est_mmStabPre, ratio_mmStabPre]
  dsimp only
  rw [skew_mmStabPre, tg_mmStabEst, q_mmStabEst, ssc_mmStabEst]
  dsimp only
  rw [heb_mmStabCan, hea_mmStabCan]
  norm_num [MarketMaker.next_intent_id]
  constructor
  · norm_num [mmStabCan, mmStabEst, mmStabPre, mmStabRes, mmStab]
  · norm_num [mmStabCan, mmStabEst]

/-- Evaluation: the full decide on mmStab. -/
theorem decide_mmStab : MarketMaker.decide mmStab viewW = some (mmStabRes,
    [AgentIntent.cancelOrder 0 4,
     AgentIntent.placeOrder 1 Side.BUY OrderType.LIMIT 24 (some 93),
     AgentIntent.placeOrder 2 Side.SELL OrderType.LIMIT 2 (some 95)]) := by
  rw [decide_dispatch mmStab viewW md95 eco90110 rfl rfl rfl, layer_mmStab, pre_mmStab,
    if_neg (by decide), if_pos rfl, stab_layer_eval]

/-- Witness for C2: on mmStab (too much cash) the emitted cancel hits a
WORKING, non-equivalent ask and misses the supportive bid side. -/
theorem mm_stabilize_supportive_side_witness :
    (4 : ℕ) ∉ mmStab.active_bids.map Prod.fst ∧
    ∃ ov, ((4 : ℕ), ov) ∈ mmStab.active_asks ∧ ov.lifecycle = OrderLifecycle.WORKING ∧
      MarketMaker._is_quote_equivalent ov
        (MarketMaker.stabilizeTargets mmStab (MarketMaker._estimate_price mmStab md95 eco90110).2
          (MarketMaker._calculate_skew mmStab
            (MarketMaker._calculate_inventory_ratio mmStab))).2 Side.SELL = false :=
  (mm_stabilize_supportive_side mmStab viewW md95 eco90110 rfl rfl rfl layer_mmStab
      (by
        intro oid hb
        simp only [mmStab, mmBase, ovWork, List.map_cons, List.map_nil,
          List.mem_singleton] at hb
        subst hb
        simp [mmStab, mmBase, ovAsk200])
      _ decide_mmStab).2
    (by norm_num [MarketMaker._calculate_inventory_ratio, mmStab, mmBase])
    0 4 (List.mem_cons_self _ _)

end MAS

namespace MAS

theorem provide_prices_congr (u t : MarketMaker) (mid : ℚ)
    (hsp : t.spread_size = u.spread_size) (hc : t.constants = u.constants) :
    MarketMaker._calculate_provide_prices t mid = MarketMaker._calculate_provide_prices u mid := by
  unfold MarketMaker._calculate_provide_prices
  rw [hsp, hc]

theorem cneo_all_cancels (s : MarketMaker) (b a : ℚ) (x : AgentIntent)
    (hx : x ∈ (MarketMaker._cancel_non_equivalent_orders s b a).2) :
    ∃ i oid, x = AgentIntent.cancelOrder i oid := by
  rw [cancel_non_equivalent_orders_eq] at hx
  simp only [List.mem_append] at hx
  rcases hx with h | h
  · obtain ⟨i, oid, hh, -⟩ := cancelIntentsFrom_mem _ _ _ h
    exact ⟨i, oid, hh⟩
  · obtain ⟨i, oid, hh, -⟩ := cancelIntentsFrom_mem _ _ _ h
    exact ⟨i, oid, hh⟩

set_option maxHeartbeats 3000000 in
theorem provide_place_mem (u : MarketMaker) (md : MarketDataView) (eco : EconomyInsightView)
    (iid : ℕ) (sd : Side) (ot : OrderType) (q : ℤ) (p : Option ℚ)
    (hmem : AgentIntent.placeOrder iid sd ot q p ∈ (MarketMaker._provide_layer u md eco).2) :
    ¬ (MarketMaker._calculate_provide_prices u
        (MarketMaker._estimate_price u md eco).2).1 ≥
      (MarketMaker._calculate_provide_prices u (MarketMaker._estimate_price u md eco).2).2 ∧
    ((sd = Side.BUY ∧ p = some (MarketMaker._calculate_provide_prices u
        (MarketMaker._estimate_price u md eco).2).1) ∨
     (sd = Side.SELL ∧ p = some (MarketMaker._calculate_provide_prices u
        (MarketMaker._estimate_price u md eco).2).2)) := by
  unfold MarketMaker._provide_layer at hmem
  dsimp only at hmem
  rw [provide_prices_congr u _ _ (est_spread u md eco) (est_constants u md eco)] at hmem
  rw [estimate_price_congr u _ md eco rfl] at hmem
  split_ifs at hmem <;>
    try exact absurd hmem (List.not_mem_nil _)
  all_goals refine ⟨by assumption, ?_⟩
  all_goals
    simp only [List.mem_append, List.mem_singleton, List.not_mem_nil, or_false,
      false_or, or_assoc] at hmem
  all_goals
    first
    | exact False.elim (by
        obtain ⟨i, oid, heq⟩ := cneo_all_cancels _ _ _ _ hmem
        simp at heq)
    | (rcases hmem with hc | hrest
       · exact False.elim (by
           obtain ⟨i, oid, heq⟩ := cneo_all_cancels _ _ _ _ hc
           simp at heq)
       · first
         | (rcases hrest with hb' | ha'
            · simp only [AgentIntent.placeOrder.injEq] at hb'
              exact Or.inl ⟨hb'.2.1, hb'.2.2.2.2⟩
            · simp only [AgentIntent.placeOrder.injEq] at ha'
              exact Or.inr ⟨ha'.2.1, ha'.2.2.2.2⟩)
         | (simp only [AgentIntent.placeOrder.injEq] at hrest
            first
              | exact Or.inl ⟨hrest.2.1, hrest.2.2.2.2⟩
              | exact Or.inr ⟨hrest.2.1, hrest.2.2.2.2⟩))

end MAS

namespace MAS

/-- If the computed PROVIDE bid price crosses the ask price, the PROVIDE
layer emits no intents at all. -/
theorem provide_crossed_empty (u : MarketMaker) (md : MarketDataView)
    (eco : EconomyInsightView)
    (hcross : (MarketMaker._calculate_provide_prices u
        (MarketMaker._estimate_price u md eco).2).1 ≥
      (MarketMaker._calculate_provide_prices u
        (MarketMaker._estimate_price u md eco).2).2) :
    (MarketMaker._provide_layer u md eco).2 = [] := by
  unfold MarketMaker._provide_layer
  dsimp only
  rw [provide_prices_congr u _ _ (est_spread u md eco) (est_constants u md eco)]
  try rw [estimate_price_congr u _ md eco rfl]
  rw [if_pos hcross]

end MAS

namespace MAS

/-- C3: in the PROVIDE layer (over any view carrying both snapshots), if the
computed bid and ask prices cross (bid >= ask) then decide emits no intents at
all that tick, and any BUY PlaceOrder emitted alongside any SELL PlaceOrder in
the same decide call carries a strictly smaller price (bid < ask): quotes are
never crossed. -/
theorem mm_provide_no_crossed_quotes (s : MarketMaker) (view : AgentView)
    (md : MarketDataView) (eco : EconomyInsightView) (s' : MarketMaker)
    (res : List AgentIntent)
    (hid : view.agent_id = s.agent_id)
    (hmd : view.market_data_view = some md)
    (heco : view.economy_insight_view = some eco)
    (hlayer : MarketMaker._determine_current_layer s = "PROVIDE")
    (hdec : MarketMaker.decide s view = some (s', res)) :
    ((MarketMaker._calculate_provide_prices (MarketMaker.decidePre s view)
        (MarketMaker._estimate_price (MarketMaker.decidePre s view) md eco).2).1 ≥
     (MarketMaker._calculate_provide_prices (MarketMaker.decidePre s view)
        (MarketMaker._estimate_price (MarketMaker.decidePre s view) md eco).2).2 →
      res = []) ∧
    (∀ i1 ot1 q1 p1 i2 ot2 q2 p2,
      AgentIntent.placeOrder i1 Side.BUY ot1 q1 p1 ∈ res →
      AgentIntent.placeOrder i2 Side.SELL ot2 q2 p2 ∈ res →
      ∃ b a, p1 = some b ∧ p2 = some a ∧ b < a) := by
  rw [decide_dispatch s view md eco hid hmd heco, hlayer,
    if_neg (by decide), if_neg (by decide)] at hdec
  have hres : res = (MarketMaker._provide_layer (MarketMaker.decidePre s view) md eco).2 :=
    (congrArg Prod.snd (Option.some.inj hdec)).symm
  subst hres
  constructor
  · intro hcross
    exact provide_crossed_empty _ md eco hcross
  · intro i1 ot1 q1 p1 i2 ot2 q2 p2 h1 h2
    obtain ⟨hnc, hd1⟩ := provide_place_mem _ md eco _ _ _ _ _ h1
    obtain ⟨-, hd2⟩ := provide_place_mem _ md eco _ _ _ _ _ h2
    rcases hd1 with ⟨-, hp1⟩ | ⟨hsd1, -⟩
    · rcases hd2 with ⟨hsd2, -⟩ | ⟨-, hp2⟩
      · exact absurd hsd2 (by simp)
      · exact ⟨_, _, hp1, hp2, lt_of_not_le hnc⟩
    · exact absurd hsd1 (by simp)

/-- Witness for C3 at the concrete empty-account PROVIDE state: all the
hypotheses hold and the conclusion is obtained on the concrete decide run. -/
theorem mm_provide_no_crossed_quotes_witness :
    viewW.agent_id = mmEmpty.agent_id ∧
    MarketMaker._determine_current_layer mmEmpty = "PROVIDE" ∧
    (∀ i1 ot1 q1 p1 i2 ot2 q2 p2,
      AgentIntent.placeOrder i1 Side.BUY ot1 q1 p1 ∈ ([] : List AgentIntent) →
      AgentIntent.placeOrder i2 Side.SELL ot2 q2 p2 ∈ ([] : List AgentIntent) →
      ∃ b a, p1 = some b ∧ p2 = some a ∧ b < a) :=
  ⟨rfl,
   by
    norm_num [MarketMaker._determine_current_layer, MarketMaker._should_survive,
      MarketMaker._should_stabilize, MarketMaker._calculate_inventory_ratio,
      mmEmpty, mmBase],
   (mm_provide_no_crossed_quotes mmEmpty viewW md95 eco90110 mmDecided []
      rfl rfl rfl
      (by
        norm_num [MarketMaker._determine_current_layer, MarketMaker._should_survive,
          MarketMaker._should_stabilize, MarketMaker._calculate_inventory_ratio,
          mmEmpty, mmBase])
      decide_mmEmpty).2⟩

end MAS

namespace MAS

/-- The empty intent run. -/
theorem IdsFrom_nil (n : ℕ) : IdsFrom n [] n := by
  refine ⟨?_, rfl⟩
  simp [intentIds, IdsFrom]

/-- A single intent carrying the current counter. -/
theorem IdsFrom_single (n : ℕ) (x : AgentIntent) (h : AgentIntent.intentIdOf x = n) :
    IdsFrom n [x] (n + 1) := by
  refine ⟨?_, rfl⟩
  simp [intentIds, h, List.range'_one]

/-- Consecutive id runs compose over append. -/
theorem IdsFrom_append {n m k : ℕ} {l1 l2 : List AgentIntent}
    (h1 : IdsFrom n l1 m) (h2 : IdsFrom m l2 k) : IdsFrom n (l1 ++ l2) k := by
  obtain ⟨h1a, h1b⟩ := h1
  obtain ⟨h2a, h2b⟩ := h2
  subst h1b
  refine ⟨?_, by simp only [List.length_append]; omega⟩
  have hr := List.range'_append n l1.length l2.length 1
  simp only [one_mul] at hr
  simp only [intentIds, List.map_append, List.length_append] at *
  rw [h1a, h2a, hr, Nat.add_comm]

/-- The ids attached by a cancel run are exactly the consecutive block. -/
theorem intentIds_cancelIntentsFrom : ∀ (oids : List ℕ) (n : ℕ),
    intentIds (cancelIntentsFrom n oids) = List.range' n oids.length := by
  intro oids
  induction oids with
  | nil => intro n; simp [cancelIntentsFrom, intentIds]
  | cons hd tl ih =>
    intro n
    have ih2 := ih (n + 1)
    simp only [cancelIntentsFrom, intentIds, List.length_cons, List.range'_succ,
      List.zipWith_cons_cons, List.map_cons] at ih2 ⊢
    rw [ih2]
    rfl

/-- A cancel run is a consecutive id run. -/
theorem cancelIntentsFrom_IdsFrom (n : ℕ) (oids : List ℕ) :
    IdsFrom n (cancelIntentsFrom n oids) (n + oids.length) := by
  refine ⟨?_, ?_⟩
  · rw [intentIds_cancelIntentsFrom]
    congr 1
    simp [cancelIntentsFrom]
  · simp [cancelIntentsFrom]

end MAS

namespace MAS

/-- The SURVIVE full cancel emits a consecutive id run. -/
theorem cancel_all_ids (s : MarketMaker) :
    IdsFrom s.intent_id_counter (MarketMaker._cancel_all_orders s).2
      (MarketMaker._cancel_all_orders s).1.intent_id_counter := by
  unfold MarketMaker._cancel_all_orders
  dsimp only
  simp only [cancelWorking_eq]
  exact IdsFrom_append (cancelIntentsFrom_IdsFrom _ _) (cancelIntentsFrom_IdsFrom _ _)

/-- The panic sell intent consumes the next consecutive id (or none). -/
theorem psell_ids (s : MarketMaker) (md : MarketDataView) (eco : EconomyInsightView) :
    IdsFrom s.intent_id_counter (MarketMaker._create_panic_sell_intent s md eco).2.toList
      (MarketMaker._create_panic_sell_intent s md eco).1.intent_id_counter := by
  unfold MarketMaker._create_panic_sell_intent
  dsimp only
  split_ifs with h
  · exact IdsFrom_nil _
  · rw [estimate_price_eq s md eco]
    dsimp only [MarketMaker.next_intent_id, Option.toList]
    exact IdsFrom_single _ _ rfl

/-- The panic buy intent consumes the next consecutive id (or none). -/
theorem pbuy_ids (s : MarketMaker) (md : MarketDataView) (eco : EconomyInsightView) :
    IdsFrom s.intent_id_counter (MarketMaker._create_panic_buy_intent s md eco).2.toList
      (MarketMaker._create_panic_buy_intent s md eco).1.intent_id_counter := by
  unfold MarketMaker._create_panic_buy_intent
  dsimp only
  split_ifs with h h2
  · exact IdsFrom_nil _
  · rw [est_counter s md eco]
    exact IdsFrom_nil _
  · rw [estimate_price_eq s md eco]
    dsimp only [MarketMaker.next_intent_id, Option.toList]
    exact IdsFrom_single _ _ rfl

/-- C7 at the SURVIVE layer: a consecutive id run. -/
theorem survive_ids (s : MarketMaker) (md : MarketDataView) (eco : EconomyInsightView) :
    IdsFrom s.intent_id_counter (MarketMaker._survive_layer s md eco).2
      (MarketMaker._survive_layer s md eco).1.intent_id_counter := by
  unfold MarketMaker._survive_layer
  dsimp only
  split_ifs with h1 h2
  · exact IdsFrom_append (cancel_all_ids s) (psell_ids _ md eco)
  · exact IdsFrom_append (cancel_all_ids s) (pbuy_ids _ md eco)
  · exact cancel_all_ids s

end MAS

namespace MAS

/-- The STABILIZE selective cancel emits a consecutive id run. -/
theorem ssc_ids (s : MarketMaker) (r tb ta : ℚ) :
    IdsFrom s.intent_id_counter (MarketMaker._selective_stabilize_cancel s r tb ta).2
      (MarketMaker._selective_stabilize_cancel s r tb ta).1.intent_id_counter := by
  unfold MarketMaker._selective_stabilize_cancel
  split_ifs with h <;> rw [cancelNonEquivalent_eq] <;> exact cancelIntentsFrom_IdsFrom _ _

/-- The PROVIDE selective cancel emits a consecutive id run. -/
theorem cneo_ids (s : MarketMaker) (bid ask : ℚ) :
    IdsFrom s.intent_id_counter (MarketMaker._cancel_non_equivalent_orders s bid ask).2
      (MarketMaker._cancel_non_equivalent_orders s bid ask).1.intent_id_counter := by
  rw [cancel_non_equivalent_orders_eq]
  dsimp only
  have h := IdsFrom_append (cancelIntentsFrom_IdsFrom s.intent_id_counter
      (nonEquivIds s.active_bids bid Side.BUY))
    (cancelIntentsFrom_IdsFrom
      (s.intent_id_counter + (nonEquivIds s.active_bids bid Side.BUY).length)
      (nonEquivIds s.active_asks ask Side.SELL))
  refine ⟨h.1, ?_⟩
  rw [← Nat.add_assoc]
  exact h.2

/-- C7 at the STABILIZE layer: a consecutive id run. -/
theorem stabilize_ids (s : MarketMaker) (md : MarketDataView) (eco : EconomyInsightView) :
    IdsFrom s.intent_id_counter (MarketMaker._stabilize_layer s md eco).2
      (MarketMaker._stabilize_layer s md eco).1.intent_id_counter := by
  unfold MarketMaker._stabilize_layer
  dsimp only
  rw [← est_counter s md eco]
  split_ifs with h1 h2 <;>
    dsimp only [MarketMaker.next_intent_id] <;>
    [exact IdsFrom_append (IdsFrom_append (ssc_ids _ _ _ _) (IdsFrom_single _ _ rfl))
      (IdsFrom_single _ _ rfl);
     exact IdsFrom_append (IdsFrom_append (ssc_ids _ _ _ _) (IdsFrom_single _ _ rfl))
      (IdsFrom_nil _);
     exact IdsFrom_append (IdsFrom_append (ssc_ids _ _ _ _) (IdsFrom_nil _))
      (IdsFrom_single _ _ rfl);
     exact IdsFrom_append (IdsFrom_append (ssc_ids _ _ _ _) (IdsFrom_nil _))
      (IdsFrom_nil _)]

end MAS

namespace MAS

/-- C7 at the PROVIDE layer: a consecutive id run. -/
theorem provide_ids (s : MarketMaker) (md : MarketDataView) (eco : EconomyInsightView) :
    IdsFrom s.intent_id_counter (MarketMaker._provide_layer s md eco).2
      (MarketMaker._provide_layer s md eco).1.intent_id_counter := by
  unfold MarketMaker._provide_layer
  dsimp only
  rw [← est_counter s md eco]
  split_ifs <;>
    dsimp only [MarketMaker.next_intent_id] <;>
    first
      | exact IdsFrom_nil _
      | exact IdsFrom_append (IdsFrom_append (cneo_ids _ _ _) (IdsFrom_single _ _ rfl))
          (IdsFrom_single _ _ rfl)
      | exact IdsFrom_append (IdsFrom_append (cneo_ids _ _ _) (IdsFrom_single _ _ rfl))
          (IdsFrom_nil _)
      | exact IdsFrom_append (IdsFrom_append (cneo_ids _ _ _) (IdsFrom_nil _))
          (IdsFrom_single _ _ rfl)
      | exact IdsFrom_append (IdsFrom_append (cneo_ids _ _ _) (IdsFrom_nil _))
          (IdsFrom_nil _)

end MAS

namespace MAS

/-- Every feedback key is the id of one of the processed intents. -/
theorem process_intents_keys (env : MarketEnv) (aid : ℕ) : ∀ (l : List AgentIntent),
    (∀ k, k ∈ ((_process_intents env aid l).1.order_results.map Prod.fst) →
      k ∈ intentIds l) ∧
    (∀ k, k ∈ ((_process_intents env aid l).1.deposit_results.map Prod.fst) →
      k ∈ intentIds l) := by
  intro l
  induction l with
  | nil =>
    refine ⟨?_, ?_⟩ <;> intro k hk <;> simp [_process_intents] at hk
  | cons hd tl ih =>
    obtain ⟨ih1, ih2⟩ := ih
    rcases hd with ⟨iid, sd, ot, q, p⟩ | ⟨iid, oid⟩ | ⟨iid, a, t⟩ <;>
      refine ⟨?_, ?_⟩ <;> intro k hk <;>
        simp only [_process_intents, List.map_cons, List.mem_cons, intentIds,
          AgentIntent.intentIdOf] at hk ⊢
    · rcases hk with rfl | hk
      · exact Or.inl rfl
      · exact Or.inr (ih1 k hk)
    · exact Or.inr (ih2 k hk)
    · rcases hk with rfl | hk
      · exact Or.inl rfl
      · exact Or.inr (ih1 k hk)
    · exact Or.inr (ih2 k hk)
    · exact Or.inr (ih1 k hk)
    · rcases hk with rfl | hk
      · exact Or.inl rfl
      · exact Or.inr (ih2 k hk)

/-- decide issues a consecutive id run and advances the counter by its
length. -/
theorem decide_ids (s : MarketMaker) (view : AgentView)
    (md : MarketDataView) (eco : EconomyInsightView) (s' : MarketMaker)
    (res : List AgentIntent)
    (hid : view.agent_id = s.agent_id)
    (hmd : view.market_data_view = some md)
    (heco : view.economy_insight_view = some eco)
    (hdec : MarketMaker.decide s view = some (s', res)) :
    IdsFrom s.intent_id_counter res s'.intent_id_counter := by
  rw [decide_dispatch s view md eco hid hmd heco] at hdec
  have hc := (decidePre_frame s view).2.2.2.2.2.2.2.2.2.2.2.2.1
  split_ifs at hdec
  · have h := Option.some.inj hdec
    have hl := survive_ids (MarketMaker.decidePre s view) md eco
    rw [h, hc] at hl
    simpa using hl
  · have h := Option.some.inj hdec
    have hl := stabilize_ids (MarketMaker.decidePre s view) md eco
    rw [h, hc] at hl
    simpa using hl
  · have h := Option.some.inj hdec
    have hl := provide_ids (MarketMaker.decidePre s view) md eco
    rw [h, hc] at hl
    simpa using hl

end MAS

namespace MAS

/-- C7: on any decide call that returns, the attached intent_id values form
the consecutive block starting at the current counter (hence strictly
increasing, resuming one past the last previously issued value, the counter
advancing by the number of intents), and every key of the order/deposit
feedback maps the engine builds from those intents is the id of one of the
intents just issued (no orphan keys). -/
theorem mm_intent_ids_and_feedback_keys (s : MarketMaker) (view : AgentView)
    (md : MarketDataView) (eco : EconomyInsightView) (s' : MarketMaker)
    (res : List AgentIntent) (env : MarketEnv) (aid : ℕ)
    (hid : view.agent_id = s.agent_id)
    (hmd : view.market_data_view = some md)
    (heco : view.economy_insight_view = some eco)
    (hdec : MarketMaker.decide s view = some (s', res)) :
    intentIds res = List.range' s.intent_id_counter res.length ∧
    s'.intent_id_counter = s.intent_id_counter + res.length ∧
    (∀ k, k ∈ ((_process_intents env aid res).1.order_results.map Prod.fst) →
      k ∈ intentIds res) ∧
    (∀ k, k ∈ ((_process_intents env aid res).1.deposit_results.map Prod.fst) →
      k ∈ intentIds res) := by
  have hids := decide_ids s view md eco s' res hid hmd heco hdec
  exact ⟨hids.1, hids.2, (process_intents_keys env aid res).1,
    (process_intents_keys env aid res).2⟩

/-- Witness for C7 on the concrete STABILIZE run: the three intents carry
ids 0, 1, 2, the counter lands on 3, and the concrete feedback key 0 is
among the issued ids. -/
theorem mm_intent_ids_and_feedback_keys_witness :
    intentIds [AgentIntent.cancelOrder 0 4,
      AgentIntent.placeOrder 1 Side.BUY OrderType.LIMIT 24 (some 93),
      AgentIntent.placeOrder 2 Side.SELL OrderType.LIMIT 2 (some 95)] =
      List.range' mmStab.intent_id_counter 3 ∧
    mmStabRes.intent_id_counter = mmStab.intent_id_counter + 3 ∧
    (0 : ℕ) ∈ intentIds [AgentIntent.cancelOrder 0 4,
      AgentIntent.placeOrder 1 Side.BUY OrderType.LIMIT 24 (some 93),
      AgentIntent.placeOrder 2 Side.SELL OrderType.LIMIT 2 (some 95)] :=
  ⟨(mm_intent_ids_and_feedback_keys mmStab viewW md95 eco90110 mmStabRes _ envW 1
      rfl rfl rfl decide_mmStab).1,
   (mm_intent_ids_and_feedback_keys mmStab viewW md95 eco90110 mmStabRes _ envW 1
      rfl rfl rfl decide_mmStab).2.1,
   (mm_intent_ids_and_feedback_keys mmStab viewW md95 eco90110 mmStabRes _ envW 1
      rfl rfl rfl decide_mmStab).2.2.1 0
     (by simp [_process_intents, envW])⟩

end MAS

namespace MAS

/-- getD with a default taken from the list never leaves the list. -/
theorem getD_mem_of_mem {α : Type} (l : List α) (i : ℕ) (d : α) (hd : d ∈ l) :
    l.getD i d ∈ l := by
  by_cases h : i < l.length
  · rw [List.getD_eq_getElem l d h]
    exact List.getElem_mem h
  · rw [List.getD_eq_default l d (Nat.le_of_not_lt h)]
    exact hd

set_option maxRecDepth 4096 in
/-- Shuffling returns a selection of the input elements. -/
theorem drawShuffle_mem {α : Type} : ∀ (n : ℕ) (l : List α) (g : Rng) (x : α),
    x ∈ (drawShuffle n l g).1 → x ∈ l := by
  intro n
  induction n with
  | zero => intro l g x hx; simp [drawShuffle] at hx
  | succ n ih =>
    intro l g x hx
    rcases l with _ | ⟨y, ys⟩
    · simp [drawShuffle] at hx
    · simp only [drawShuffle, List.mem_cons] at hx
      rcases hx with h | hx
      · rw [h]
        exact getD_mem_of_mem _ _ _ (List.mem_cons_self y ys)
      · exact List.Sublist.mem (ih _ _ _ hx) (List.eraseIdx_sublist _ _)


end MAS

namespace MAS

/-- The tick selectors only consume PRNG state. -/
theorem micro_tick_frame (m : AgentManager) :
    (micro_tick_agents m).2.agents = m.agents ∧
    (micro_tick_agents m).2.value_investor_ids = m.value_investor_ids :=
  ⟨rfl, rfl⟩

/-- The tick selectors only consume PRNG state. -/
theorem macro_tick_frame (m : AgentManager) :
    (macro_tick_agents m).2.agents = m.agents ∧
    (macro_tick_agents m).2.value_investor_ids = m.value_investor_ids :=
  ⟨rfl, rfl⟩

/-- A micro tick never schedules an agent tagged as a ValueInvestor. -/
theorem micro_tick_no_vi (m : AgentManager) (hwf : viWellTagged m) (aid : ℕ) :
    (aid, AgentKind.ValueInvestorK) ∉ (micro_tick_agents m).1 := by
  intro hmem
  unfold micro_tick_agents shuffle at hmem
  dsimp only at hmem
  have hc := drawShuffle_mem _ _ _ _ hmem
  rw [List.mem_filter] at hc
  obtain ⟨hin, hflt⟩ := hc
  have hvi := hwf aid _ hin rfl
  simp at hflt
  exact hflt hvi

end MAS

namespace MAS

/-- Class bookkeeping survives a tick of either kind. -/
theorem viWellTagged_tick (m : AgentManager) (b : Bool) (hwf : viWellTagged m) :
    viWellTagged ((if b then micro_tick_agents m else macro_tick_agents m).2) := by
  cases b <;> exact fun aid k hm hk => hwf aid k hm hk

/-- No micro tick of a run ever schedules a ValueInvestor-tagged agent. -/
theorem runSchedule_micro_no_vi : ∀ (ticks : List Bool) (m : AgentManager),
    viWellTagged m → ∀ (l : List (ℕ × AgentKind)) (aid : ℕ),
      (true, l) ∈ runSchedule m ticks → (aid, AgentKind.ValueInvestorK) ∉ l := by
  intro ticks
  induction ticks with
  | nil => intro m hwf l aid hmem; simp [runSchedule] at hmem
  | cons b rest ih =>
    intro m hwf l aid hmem
    simp only [runSchedule, List.mem_cons] at hmem
    rcases hmem with h | h
    · have hb := congrArg Prod.fst h
      have hl := congrArg Prod.snd h
      dsimp only at hb hl
      rw [← hb] at hl
      simp only [if_true, ite_true] at hl
      rw [hl]
      exact micro_tick_no_vi m hwf aid
    · exact ih _ (viWellTagged_tick m b hwf) l aid h

end MAS

namespace MAS

/-- initializeAgents lists every ValueInvestor-tagged agent id in the
value-investor id set. -/
theorem initializeAgents_wellTagged (seed a b c d : ℕ) :
    viWellTagged (initializeAgents seed a b c d) := by
  intro aid k hm hk
  subst hk
  simp only [initializeAgents, List.mem_append, List.mem_map, List.mem_range,
    Prod.mk.injEq] at hm ⊢
  rcases hm with ((⟨i, hi, he1, he2⟩ | ⟨i, hi, he1, he2⟩) | ⟨i, hi, he1, he2⟩) |
    ⟨i, hi, he1, he2⟩ <;>
    first
      | exact ⟨i, hi, he1⟩
      | exact absurd he2 (by simp)

/-- C8: two runs from managers agreeing on the population, the
value-investor id set and the PRNG state produce identical per-tick
execution orders; and, when the class bookkeeping is coherent, no micro
tick of a run ever schedules a ValueInvestor agent. -/
theorem scheduling_deterministic_and_class_filtered
    (m1 m2 : AgentManager) (ticks : List Bool)
    (hagents : m1.agents = m2.agents)
    (hvi : m1.value_investor_ids = m2.value_investor_ids)
    (hrng : m1.rng = m2.rng)
    (hwf : viWellTagged m1) :
    runSchedule m1 ticks = runSchedule m2 ticks ∧
    ∀ (l : List (ℕ × AgentKind)) (aid : ℕ),
      (true, l) ∈ runSchedule m1 ticks → (aid, AgentKind.ValueInvestorK) ∉ l := by
  have hm : m1 = m2 := by
    cases m1
    cases m2
    simp_all
  exact ⟨by rw [hm], fun l aid h => runSchedule_micro_no_vi ticks m1 hwf l aid h⟩

/-- Witness for C8: the seed-7 four-agent population is coherently tagged,
two identical runs agree, and the ValueInvestor (id 20000) is absent from
the concrete micro-tick order of the second tick. -/
theorem scheduling_deterministic_and_class_filtered_witness :
    runSchedule (initializeAgents 7 1 1 1 1) [false, true] =
      runSchedule (initializeAgents 7 1 1 1 1) [false, true] ∧
    (20000, AgentKind.ValueInvestorK) ∉
      [(10000, AgentKind.MarketMakerK), (40000, AgentKind.NoiseTraderK),
       (30000, AgentKind.MomentumTraderK)] :=
  ⟨(scheduling_deterministic_and_class_filtered (initializeAgents 7 1 1 1 1)
      (initializeAgents 7 1 1 1 1) [false, true] rfl rfl rfl
      (initializeAgents_wellTagged 7 1 1 1 1)).1,
   (scheduling_deterministic_and_class_filtered (initializeAgents 7 1 1 1 1)
      (initializeAgents 7 1 1 1 1) [false, true] rfl rfl rfl
      (initializeAgents_wellTagged 7 1 1 1 1)).2
     [(10000, AgentKind.MarketMakerK), (40000, AgentKind.NoiseTraderK),
      (30000, AgentKind.MomentumTraderK)] 20000 (by decide)⟩

end MAS

namespace MAS

/-- C1 counterexample: at mmFloor the SURVIVE sell branch triggers but the
emitted order's price is the floored 0.01, not mid - 5*spread = -9. -/
theorem mm_survive_priority_floor_counterexample :
    MarketMaker._calculate_inventory_ratio mmFloor < mmFloor.risk_lower_bound ∧
    Option.map Prod.snd (MarketMaker.decide mmFloor viewF) =
      some [AgentIntent.placeOrder 0 Side.SELL OrderType.LIMIT 30 (some (1 / 100))] ∧
    (1 / 100 : ℚ) ≠
      (MarketMaker._estimate_price mmFloor md1 eco90110).2 - 5 * (mmFloor.spread_size : ℚ) := by
  refine ⟨?_, ?_, ?_⟩
  · norm_num [MarketMaker._calculate_inventory_ratio, mmFloor, mmBase]
  · norm_num [MarketMaker.decide, MarketMaker.decidePre, MarketMaker._determine_current_layer,
      MarketMaker._should_survive, MarketMaker._should_stabilize,
      MarketMaker._calculate_inventory_ratio, MarketMaker._survive_layer,
      MarketMaker._cancel_all_orders, MarketMaker.cancelWorking,
      MarketMaker._create_panic_sell_intent, MarketMaker._estimate_price,
      MarketMaker.next_intent_id, mmFloor, mmBase, viewF, md1, eco90110, constantsW]
  · norm_num [MarketMaker._estimate_price, mmFloor, mmBase, md1]

end MAS
